import Mathlib

/-!
Verification of the Errly error-observability service.

This file gives a shallow embedding, in Lean, of the parts of the Errly
code base that the verified properties talk about:

* the stack-trace normalizer and fingerprint builder
  (src/server/utils/fingerprint.ts),
* the log classifier and the stack-trace assembler state machine
  (src/server/services/railway/log-parser.ts),
* the error grouper upsert (src/server/services/error-grouper.ts),
* the store operations updateErrorStatus and deleteByRetention
  (src/server/services/error-store.ts),
* the retention sweeper (src/server/services/retention.ts),
* the SSE hub broadcast loop (src/server/plugins/sse.ts),
* the circuit breaker and the platform HTTP client guard
  (src/server/services/railway/client.ts).

The TypeScript code leans heavily on JavaScript regular expressions, so the
embedding starts with a small executable pattern engine mirroring the
JavaScript semantics used by the code: backtracking search, leftmost match,
greedy and lazy quantifiers, numbered capture groups, word boundaries and
the start anchor.  Every pattern of the source is transliterated into this
engine one constructor per regex token.
-/

namespace Errly

/-! ### Character classes (ASCII semantics of the JavaScript classes) -/

/-- JavaScript `\w`: ASCII letters, digits and underscore. -/
def wordChar (c : Char) : Bool :=
  c.isAlpha || c.isDigit || c = '_'

/-- JavaScript `\s` restricted to the ASCII whitespace characters. -/
def spaceChar (c : Char) : Bool :=
  c = ' ' || c = '\t' || c = '\n' || c = '\r' || c = '\x0b' || c = '\x0c'

/-- JavaScript `\d`. -/
def digitChar (c : Char) : Bool := c.isDigit

/-- Hexadecimal digit, `[0-9a-fA-F]`. -/
def hexChar (c : Char) : Bool :=
  c.isDigit || (97 ≤ c.toNat && c.toNat ≤ 102) || (65 ≤ c.toNat && c.toNat ≤ 70)

/-- JavaScript `.` (without the `s` flag): anything but a line terminator. -/
def dotChar (c : Char) : Bool :=
  c ≠ '\n' && c ≠ '\r'

/-- JavaScript `\S`. -/
def nonSpaceChar (c : Char) : Bool := !(spaceChar c)

/-! ### Pattern syntax -/

/-- Abstract syntax of the regular-expression fragment used by the code:
single-character classes, sequencing, ordered alternation, greedy and lazy
Kleene star, numbered capture groups, the word boundary `\b` and the
start-of-input anchor `^`. -/
inductive Pat : Type where
  | eps : Pat
  | ch (p : Char → Bool) : Pat
  | seq (a b : Pat) : Pat
  | alt (a b : Pat) : Pat
  | star (a : Pat) : Pat
  | starL (a : Pat) : Pat
  | grp (i : Nat) (a : Pat) : Pat
  | bound : Pat
  | bol : Pat

/-- Size of a pattern, used to compute a sufficient fuel bound. -/
def Pat.size : Pat → Nat
  | .eps => 1
  | .ch _ => 1
  | .seq a b => a.size + b.size + 1
  | .alt a b => a.size + b.size + 1
  | .star a => a.size + 1
  | .starL a => a.size + 1
  | .grp _ a => a.size + 1
  | .bound => 1
  | .bol => 1

/-- Captured groups: group index paired with the captured characters.  The
most recent capture for an index sits first, as JavaScript keeps the last
iteration of a repeated group. -/
abbrev Caps := List (Nat × List Char)

/-- Backtracking matcher in continuation-passing style.  `prev` is the
character just before the current position (for `\b` and `^`), `caps` the
captures recorded so far.  Alternatives are tried left to right, greedy
stars prefer consuming, lazy stars prefer the continuation — the priority
order of a JavaScript backtracking engine, so the first result found here
is the match JavaScript reports.  The fuel only bounds the recursion depth
and is chosen large enough below to never be the reason a match fails. -/
def mrun : Nat → Pat → Option Char → List Char → Caps →
    (Option Char → List Char → Caps → Option (Caps × List Char)) →
    Option (Caps × List Char)
  | 0, _, _, _, _, _ => none
  | _ + 1, .eps, prev, s, caps, k => k prev s caps
  | _ + 1, .ch p, _, s, caps, k =>
      match s with
      | [] => none
      | c :: rest => if p c then k (some c) rest caps else none
  | f + 1, .seq a b, prev, s, caps, k =>
      mrun f a prev s caps (fun prev2 s2 caps2 => mrun f b prev2 s2 caps2 k)
  | f + 1, .alt a b, prev, s, caps, k =>
      match mrun f a prev s caps k with
      | some r => some r
      | none => mrun f b prev s caps k
  | f + 1, .star a, prev, s, caps, k =>
      match mrun f a prev s caps (fun prev2 s2 caps2 =>
          if s2.length < s.length then mrun f (.star a) prev2 s2 caps2 k
          else k prev2 s2 caps2) with
      | some r => some r
      | none => k prev s caps
  | f + 1, .starL a, prev, s, caps, k =>
      match k prev s caps with
      | some r => some r
      | none =>
          mrun f a prev s caps (fun prev2 s2 caps2 =>
            if s2.length < s.length then mrun f (.starL a) prev2 s2 caps2 k
            else none)
  | f + 1, .grp i a, prev, s, caps, k =>
      mrun f a prev s caps (fun prev2 s2 caps2 =>
        k prev2 s2 ((i, s.take (s.length - s2.length)) :: caps2))
  | _ + 1, .bound, prev, s, caps, k =>
      let lw := match prev with | some c => wordChar c | none => false
      let rw := match s with | c :: _ => wordChar c | [] => false
      if lw != rw then k prev s caps else none
  | _ + 1, .bol, prev, s, caps, k =>
      if prev.isNone then k prev s caps else none

/-- Fuel that is always sufficient: the recursion depth of the matcher is bounded
by one pattern traversal per consumed character plus one. -/
def fuelFor (p : Pat) (s : List Char) : Nat :=
  (s.length + 2) * (p.size + 2) + p.size + 16

/-- Try to match `p` exactly at the current position. Returns the captures
and the remaining suffix of the first (JavaScript-priority) match. -/
def matchHere (p : Pat) (prev : Option Char) (s : List Char) :
    Option (Caps × List Char) :=
  mrun (fuelFor p s) p prev s [] (fun _ rest caps => some (caps, rest))

/-- Leftmost search: returns `(start, caps, length)` of the first match,
scanning positions left to right like `RegExp.exec`. -/
def searchAux (p : Pat) : Option Char → List Char → Option (Nat × Caps × Nat)
  | prev, s =>
    match matchHere p prev s with
    | some (caps, rest) => some (0, caps, s.length - rest.length)
    | none =>
        match s with
        | [] => none
        | c :: cs =>
            match searchAux p (some c) cs with
            | some (st, caps, len) => some (st + 1, caps, len)
            | none => none

/-- JavaScript `regex.test(s)`. -/
def searchTest (p : Pat) (s : String) : Bool :=
  (searchAux p none s.data).isSome

/-- Captures of the first match, or `none` when the pattern does not occur:
the backbone of `String.prototype.match` as used by the code. -/
def searchCaps (p : Pat) (s : String) : Option Caps :=
  match searchAux p none s.data with
  | some (_, caps, _) => some caps
  | none => none

/-- Look up capture group `i`; an absent group reads as the empty string,
as in a JavaScript replacement template. -/
def capGet (caps : Caps) (i : Nat) : List Char :=
  match caps.lookup i with
  | some x => x
  | none => []

/-- Global replacement driver, mirroring `String.prototype.replace` with the
`g` flag: repeatedly find the leftmost match, substitute, and continue after
it.  The scan continues over the original characters (JavaScript scans the
source string, not the part-built result), which matters for `\b`. -/
def replaceAllAux (p : Pat) (repl : List Char → Caps → List Char) :
    Nat → Option Char → List Char → List Char
  | 0, _, s => s
  | f + 1, prev, s =>
    match searchAux p prev s with
    | none => s
    | some (st, caps, len) =>
        let pre := s.take st
        let matched := (s.drop st).take len
        let rest := s.drop (st + len)
        if len = 0 then
          match rest with
          | [] => pre ++ repl matched caps
          | c :: cs => pre ++ repl matched caps ++ c :: replaceAllAux p repl f (some c) cs
        else
          let prevC := (s.take (st + len)).getLast?
          pre ++ repl matched caps ++ replaceAllAux p repl f prevC rest

/-- JavaScript `s.replace(p, repl)` with the `g` flag. -/
def replaceAll (p : Pat) (repl : List Char → Caps → List Char) (s : String) : String :=
  ⟨replaceAllAux p repl (s.data.length + 1) none s.data⟩

/-! ### Smart constructors transliterating regex tokens -/

/-- A literal character. -/
def lit (c : Char) : Pat := .ch (· == c)

/-- A literal string (case-sensitive). -/
def strOf (s : String) : Pat :=
  s.data.foldr (fun c acc => Pat.seq (lit c) acc) .eps

/-- A literal string under the `i` flag. -/
def striOf (s : String) : Pat :=
  s.data.foldr (fun c acc => Pat.seq (Pat.ch (fun d => d.toLower == c.toLower)) acc) .eps

/-- Greedy `+`. -/
def plus (a : Pat) : Pat := .seq a (.star a)

/-- Lazy `+?`. -/
def plusL (a : Pat) : Pat := .seq a (.starL a)

/-- Greedy `?`. -/
def quest (a : Pat) : Pat := .alt a .eps

/-- Exactly `n` copies. -/
def repEx (a : Pat) : Nat → Pat
  | 0 => .eps
  | n + 1 => .seq a (repEx a n)

/-- `{n,}`. -/
def repGe (a : Pat) (n : Nat) : Pat := .seq (repEx a n) (.star a)

/-- `{lo,hi}`: `lo` mandatory copies then `hi - lo` greedy-optional ones,
which explores longer counts first, like the JavaScript quantifier. -/
def repRange (a : Pat) (lo hi : Nat) : Pat :=
  .seq (repEx a lo) (repEx (quest a) (hi - lo))

/-- Sequence of a list of patterns. -/
def patCat (l : List Pat) : Pat := l.foldr .seq .eps

/-- Ordered alternation of a list of patterns. -/
def patAny : List Pat → Pat
  | [] => .ch (fun _ => false)
  | [p] => p
  | p :: ps => .alt p (patAny ps)

/-- Shorthand for the `\d` class. -/
def dP : Pat := .ch digitChar

/-- Shorthand for the `\s` class. -/
def sP : Pat := .ch spaceChar

/-- Shorthand for the `\w` class. -/
def wP : Pat := .ch wordChar

/-- Shorthand for the `.` class. -/
def dotP : Pat := .ch dotChar

/-- An ASCII apostrophe, built numerically so it cannot be confused with
Lean name quoting. -/
def aposChar : Char := Char.ofNat 39

/-! ### Kernel-computable string helpers

The embedding uses its own list-based trim, split and join rather than the
`Substring`-based library ones, so that every definition evaluates inside
the kernel; they implement exactly the JavaScript `trim`, `trimStart`,
`split("\n")` and `join(sep)` semantics the source relies on. -/

/-- JavaScript `trim`: drop whitespace from both ends. -/
def jsTrim (s : String) : String :=
  ⟨((s.data.dropWhile Char.isWhitespace).reverse.dropWhile Char.isWhitespace).reverse⟩

/-- Split on newline characters (JavaScript `split("\n")`). -/
def splitNlAux : List Char → List (List Char)
  | [] => [[]]
  | c :: rest =>
      if c = '\n' then [] :: splitNlAux rest
      else
        match splitNlAux rest with
        | [] => [[c]]
        | l :: ls => (c :: l) :: ls

/-- Split a string on newlines. -/
def splitNl (s : String) : List String := (splitNlAux s.data).map String.mk

/-- JavaScript `Array.prototype.join(sep)`. -/
def joinSep (sep : String) : List String → String
  | [] => ""
  | [x] => x
  | x :: xs => x ++ sep ++ joinSep sep xs

/-! ### Stack-trace normalization (src/server/utils/fingerprint.ts)

`normalizeStackTrace` splits the stack on newlines, pushes every line
through a fixed pipeline of global regex replacements, rejoins and trims.
Each rule below transliterates one `normalized.replace(...)` call in source
order. -/

/-- Rule 1 pattern: a standard 8-4-4-4-12 hexadecimal UUID. -/
def uuidPat : Pat :=
  patCat [repEx (.ch hexChar) 8, lit '-', repEx (.ch hexChar) 4, lit '-',
          repEx (.ch hexChar) 4, lit '-', repEx (.ch hexChar) 4, lit '-',
          repEx (.ch hexChar) 12]

/-- Rule 2 pattern: `0x` followed by four or more hex digits. -/
def addrPat : Pat := patCat [lit '0', lit 'x', repGe (.ch hexChar) 4]

/-- Rule 3 pattern: an ISO-8601 timestamp with optional fraction and zone. -/
def isoPat : Pat :=
  patCat [repEx dP 4, lit '-', repEx dP 2, lit '-', repEx dP 2, lit 'T',
          repEx dP 2, lit ':', repEx dP 2, lit ':', repEx dP 2,
          quest (patCat [lit '.', plus dP]),
          quest (.alt (lit 'Z')
            (patCat [.ch (fun c => c == '+' || c == '-'), repEx dP 2,
                     quest (lit ':'), repEx dP 2]))]

/-- Rule 4 pattern: common log timestamps `YYYY-MM-DD HH:MM:SS(.ms)?` with
`-` or `/` as the date separator. -/
def logTsPat : Pat :=
  patCat [repEx dP 4, .ch (fun c => c == '-' || c == '/'), repEx dP 2,
          .ch (fun c => c == '-' || c == '/'), repEx dP 2, plus sP,
          repEx dP 2, lit ':', repEx dP 2, lit ':', repEx dP 2,
          quest (patCat [lit '.', plus dP])]

/-- Rule 5 pattern: a 10-to-13 digit integer between word boundaries. -/
def epochPat : Pat := patCat [.bound, repRange dP 10 13, .bound]

/-- Rule 6 pattern: `pid=N` or `pid:N`, case-insensitively. -/
def pidPat : Pat :=
  patCat [.bound, striOf "pid", .ch (fun c => c == '=' || c == ':'),
          .star sP, plus dP]

/-- Rule 7 pattern: `thread-N` (also `thread_N`, `threadN`),
case-insensitively. -/
def threadPat : Pat :=
  patCat [.bound, striOf "thread", quest (.ch (fun c => c == '-' || c == '_')),
          plus dP]

/-- Character class of the POSIX path segments, `[\w.@_-]`. -/
def pathChar (c : Char) : Bool :=
  wordChar c || c = '.' || c = '@' || c = '-'

/-- Rule 8 pattern: a POSIX path, captured down to its basename. -/
def unixPathPat : Pat :=
  patCat [plus (patCat [lit '/', plus (.ch pathChar)]), lit '/',
          .grp 1 (plus (.ch pathChar))]

/-- Character class of the Windows path segments, `[\w.@_\- ]`. -/
def winChar (c : Char) : Bool := pathChar c || c = ' '

/-- Rule 9 pattern: a Windows drive path, captured down to its basename;
the repetition of drive segments is lazy in the source. -/
def winPathPat : Pat :=
  patCat [plusL (patCat [.ch (fun c => c.isAlpha), lit ':', lit '\\',
                         plus (.ch winChar), lit '\\']),
          .grp 1 (plus (.ch pathChar))]

/-- The alternation of source-file extensions of rule 10, in source order. -/
def extAlt : Pat :=
  patAny [strOf "ts", strOf "js", strOf "tsx", strOf "jsx", strOf "py",
          strOf "go", strOf "java", strOf "rb", strOf "rs", strOf "cs",
          strOf "cpp", strOf "c", strOf "mjs", strOf "cjs"]

/-- Rule 10 pattern: `name.ext:LINE` or `name.ext:LINE:COL`, capturing the
file name. -/
def fileLinePat : Pat :=
  patCat [.grp 1 (patCat [plus (.ch (fun c => wordChar c || c = '.' || c = '-')),
                          lit '.', extAlt]),
          lit ':', plus dP, quest (patCat [lit ':', plus dP])]

/-- Rule 11 pattern: a trailing `:LINE:COL)`. -/
def lineColParenPat : Pat :=
  patCat [lit ':', plus dP, lit ':', plus dP, lit ')']

/-- Rule 12 pattern: a trailing `:LINE)`. -/
def lineParenPat : Pat := patCat [lit ':', plus dP, lit ')']

/-- Rule 13 pattern: `node:internal/...:LINE(:COL)?`, capturing the module
path. -/
def nodeIntPat : Pat :=
  patCat [.grp 1 (patCat [strOf "node:", plus (.ch (fun c => wordChar c || c = '/'))]),
          lit ':', plus dP, quest (patCat [lit ':', plus dP])]

/-- Rule 14 pattern: `goroutine N`. -/
def goroutinePat : Pat := patCat [strOf "goroutine", plus sP, plus dP]

/-- Rule 15 pattern: `localhost:PORT`. -/
def localhostPat : Pat := patCat [strOf "localhost:", plus dP]

/-- A constant replacement template. -/
def constRepl (s : String) : List Char → Caps → List Char :=
  fun _ _ => s.data

/-- The `$1` replacement template. -/
def cap1Repl : List Char → Caps → List Char :=
  fun _ caps => capGet caps 1

/-- Normalize one line of a stack trace: the fifteen `replace` calls of the
source, in order. -/
def normalizeLine (line : String) : String :=
  let n01 := replaceAll uuidPat (constRepl "<uuid>") line
  let n02 := replaceAll addrPat (constRepl "<addr>") n01
  let n03 := replaceAll isoPat (constRepl "<timestamp>") n02
  let n04 := replaceAll logTsPat (constRepl "<timestamp>") n03
  let n05 := replaceAll epochPat (constRepl "<timestamp>") n04
  let n06 := replaceAll pidPat (constRepl "pid=<pid>") n05
  let n07 := replaceAll threadPat (constRepl "thread-<tid>") n06
  let n08 := replaceAll unixPathPat cap1Repl n07
  let n09 := replaceAll winPathPat cap1Repl n08
  let n10 := replaceAll fileLinePat cap1Repl n09
  let n11 := replaceAll lineColParenPat (constRepl ")") n10
  let n12 := replaceAll lineParenPat (constRepl ")") n11
  let n13 := replaceAll nodeIntPat cap1Repl n12
  let n14 := replaceAll goroutinePat (constRepl "goroutine <id>") n13
  replaceAll localhostPat (constRepl "localhost:<port>") n14

/-- Normalize a whole stack trace: split on newlines, normalize each line,
rejoin, trim (mirrors normalizeStackTrace in fingerprint.ts). -/
def normalizeStackTrace (stack : String) : String :=
  jsTrim (joinSep "\n" ((splitNl stack).map normalizeLine))

/-- Fingerprint preimage: service name, message and the normalized stack (or
the empty string when there is none) joined with a NUL byte.  The source
feeds exactly this string to SHA-256 and uses the hex digest as the group
key; the embedding keeps the preimage itself as the key, so two inputs have
the same fingerprint here exactly when the source hashes the same bytes. -/
def generateFingerprint (serviceName message : String) (stackTrace : Option String) : String :=
  let normalizedStack := match stackTrace with
    | some s => normalizeStackTrace s
    | none => ""
  joinSep ⟨[Char.ofNat 0]⟩ [serviceName, message, normalizedStack]

/-! ### Shared domain types (src/shared/types.ts, src/server/db/schema.ts) -/

/-- The severity union `error | warn | fatal`. -/
inductive Severity : Type where
  | warn : Severity
  | error : Severity
  | fatal : Severity
deriving DecidableEq, Repr

/-- The numeric escalation order SEVERITY_ORDER of error-grouper.ts
(warn 0, error 1, fatal 2). -/
def severityOrder : Severity → Nat
  | .warn => 0
  | .error => 1
  | .fatal => 2

/-- shouldEscalate of error-grouper.ts: escalate exactly when the incoming
severity ranks strictly higher. -/
def shouldEscalate (current incoming : Severity) : Bool :=
  severityOrder incoming > severityOrder current

/-- The status union of an error group. -/
inductive ErrorStatus : Type where
  | new : ErrorStatus
  | investigating : ErrorStatus
  | inProgress : ErrorStatus
  | resolved : ErrorStatus
deriving DecidableEq, Repr

/-- The provenance union `auto-capture | direct`. -/
inductive ErrSource : Type where
  | autoCapture : ErrSource
  | direct : ErrSource
deriving DecidableEq, Repr

/-- One row of the `errors` table.  Timestamps are epoch milliseconds;
`metadata` carries the JSON-serialized map the source stores as text. -/
structure ErrorRow : Type where
  id : String
  serviceName : String
  deploymentId : String
  message : String
  stackTrace : Option String
  severity : Severity
  status : ErrorStatus
  endpoint : Option String
  rawLog : String
  source : ErrSource
  metadata : Option String
  fingerprint : String
  firstSeenAt : Nat
  lastSeenAt : Nat
  occurrenceCount : Nat
  statusChangedAt : Nat
  createdAt : Nat
deriving DecidableEq, Repr

/-! ### Error grouper (src/server/services/error-grouper.ts)

The store is modelled relationally as the list of rows of the `errors`
table; `SELECT ... WHERE fingerprint = fp` is `find?`, `INSERT` appends,
`UPDATE ... WHERE fingerprint = fp` maps over the rows.  The whole
transaction of processError is one pure function from the table to the
table.  `genId` stands for the `crypto.randomUUID()` drawn inside the call
and `now` for its `Date.now()`. -/

/-- The input record of processError. -/
structure ProcessErrorInput : Type where
  serviceName : String
  deploymentId : String
  message : String
  stackTrace : Option String
  severity : Severity
  endpoint : Option String
  rawLog : String
  source : ErrSource
  metadata : Option String
deriving DecidableEq, Repr

/-- The fingerprint processError computes for an input. -/
def inputFingerprint (input : ProcessErrorInput) : String :=
  generateFingerprint input.serviceName input.message input.stackTrace

/-- The SET clause of the recurrence UPDATE: the new severity, status and
status-changed values are computed once from the selected row `existing`,
and applied (together with the per-row `occurrence_count + 1` increment)
to every row matching the fingerprint. -/
def recurrenceSet (existing : ErrorRow) (now : Nat) (input : ProcessErrorInput)
    (r : ErrorRow) : ErrorRow :=
  let newSeverity :=
    if shouldEscalate existing.severity input.severity then input.severity
    else existing.severity
  let revertStatus : ErrorStatus :=
    if existing.status = .resolved then .new else existing.status
  let statusChanged := revertStatus ≠ existing.status
  { r with
    lastSeenAt := now
    occurrenceCount := r.occurrenceCount + 1
    deploymentId := input.deploymentId
    rawLog := input.rawLog
    message := input.message
    severity := newSeverity
    status := revertStatus
    statusChangedAt := if statusChanged then now else r.statusChangedAt
    endpoint := match input.endpoint with
      | some e => some e
      | none => r.endpoint
    metadata := match input.metadata with
      | some m => some m
      | none => r.metadata }

/-- processError: look up the row with the fingerprint of the input; if absent,
insert a fresh row (occurrence 1, status new, both seen-timestamps and the
status/created timestamps at `now`); if present, bump the occurrence count
and last-seen, overwrite deploymentId/rawLog/message, escalate severity,
revert resolved to new (touching statusChangedAt only when the status
actually changed), keep endpoint and metadata unless the input provides
them, and re-read the row.  `none` models the `Error record vanished after
update` throw. -/
def processError (genId : String) (now : Nat) (input : ProcessErrorInput)
    (rows : List ErrorRow) : Option ((ErrorRow × Bool) × List ErrorRow) :=
  let fp := inputFingerprint input
  match rows.find? (fun r => r.fingerprint == fp) with
  | none =>
      let newRow : ErrorRow :=
        { id := genId
          serviceName := input.serviceName
          deploymentId := input.deploymentId
          message := input.message
          stackTrace := input.stackTrace
          severity := input.severity
          status := .new
          endpoint := input.endpoint
          rawLog := input.rawLog
          source := input.source
          metadata := input.metadata
          fingerprint := fp
          firstSeenAt := now
          lastSeenAt := now
          occurrenceCount := 1
          statusChangedAt := now
          createdAt := now }
      some ((newRow, true), rows ++ [newRow])
  | some existing =>
      let rows2 := rows.map (fun r =>
        if r.fingerprint == fp then recurrenceSet existing now input r else r)
      match rows2.find? (fun r => r.id == existing.id) with
      | none => none
      | some updated => some ((updated, false), rows2)

/-- One call of a processError sequence: the generated id, the `Date.now()`
of the call, and the input. -/
structure GrouperCall : Type where
  genId : String
  now : Nat
  input : ProcessErrorInput
deriving DecidableEq, Repr

/-- Run a sequence of processError calls against the table. -/
def processSeq : List GrouperCall → List ErrorRow → Option (List ErrorRow)
  | [], rows => some rows
  | c :: rest, rows =>
      match processError c.genId c.now c.input rows with
      | none => none
      | some (_, rows2) => processSeq rest rows2

/-! ### Log classifier patterns (src/server/services/railway/log-parser.ts)

Every constant below transliterates the like-named pattern list of the
source, in source order; `bword`/`bwordCI` render a `\b...\b`-delimited
literal, `searchTest` is `RegExp.test`. -/

/-- A case-sensitive literal between word boundaries. -/
def bword (s : String) : Pat := patCat [.bound, strOf s, .bound]

/-- A case-insensitive literal between word boundaries. -/
def bwordCI (s : String) : Pat := patCat [.bound, striOf s, .bound]

/-- A JSON structured-log level marker, case-insensitively. -/
def jsonLevel (lvl : String) : Pat :=
  patCat [striOf "\"level\"", .star sP, lit ':', .star sP, striOf ("\"" ++ lvl ++ "\"")]

/-- A logfmt structured-log level marker, case-insensitively. -/
def logfmtLevel (lvl : String) : Pat :=
  patCat [.bound, striOf ("level=" ++ lvl), .bound]

/-- ERROR_MARKERS of log-parser.ts. -/
def ERROR_MARKERS : List Pat :=
  [ striOf "[ERROR]",
    striOf "[ERR]",
    striOf "[FATAL]",
    striOf "[CRITICAL]",
    patCat [.bound, strOf "ERROR:"],
    patCat [.bound, strOf "FATAL:"],
    patCat [.bound, strOf "CRITICAL:"],
    jsonLevel "error",
    jsonLevel "fatal",
    jsonLevel "critical",
    logfmtLevel "error",
    logfmtLevel "fatal",
    logfmtLevel "critical" ]

/-- UNCAUGHT_PATTERNS of log-parser.ts. -/
def UNCAUGHT_PATTERNS : List Pat :=
  [ patCat [.bound, strOf "Error:"],
    patCat [.bound, strOf "TypeError:"],
    patCat [.bound, strOf "ReferenceError:"],
    patCat [.bound, strOf "SyntaxError:"],
    patCat [.bound, strOf "RangeError:"],
    patCat [.bound, strOf "URIError:"],
    patCat [.bound, strOf "EvalError:"],
    patCat [.bound, striOf "Unhandled"],
    patCat [.bound, striOf "uncaughtException"],
    patCat [.bound, striOf "unhandledRejection"] ]

/-- FATAL_PATTERNS of log-parser.ts. -/
def FATAL_PATTERNS : List Pat :=
  [ patCat [.bound, striOf "panic:"],
    bword "SIGTERM",
    bword "SIGSEGV",
    bword "SIGABRT",
    bwordCI "OOM",
    bwordCI "out of memory",
    bwordCI "killed",
    bword "FATAL",
    bword "CRITICAL" ]

/-- EXIT_CODE_PATTERNS of log-parser.ts. -/
def EXIT_CODE_PATTERNS : List Pat :=
  [ patCat [striOf "exit code ", .ch (fun c => 49 ≤ c.toNat && c.toNat ≤ 57), .star dP],
    patCat [striOf "exited with code ", .ch (fun c => 49 ≤ c.toNat && c.toNat ≤ 57), .star dP],
    striOf "process exited" ]

/-- The HTTP method alternation, case-sensitive. -/
def methodAlt : Pat :=
  patAny [strOf "GET", strOf "POST", strOf "PUT", strOf "DELETE",
          strOf "PATCH", strOf "HEAD", strOf "OPTIONS"]

/-- The HTTP method alternation under the `i` flag. -/
def methodAltCI : Pat :=
  patAny [striOf "GET", striOf "POST", striOf "PUT", striOf "DELETE",
          striOf "PATCH", striOf "HEAD", striOf "OPTIONS"]

/-- The `[^\s"]` class of the quoted-path patterns. -/
def quotedPathChar (c : Char) : Bool := !(spaceChar c) && c ≠ '"'

/-- HTTP_5XX_PATTERN: a quoted `"METHOD /path"` followed by a 5xx status. -/
def HTTP_5XX_PATTERN : Pat :=
  patCat [lit '"', .grp 1 methodAlt, plus sP,
          .grp 2 (patCat [lit '/', .starL (.ch quotedPathChar)]),
          lit '"', .star sP, .grp 3 (patCat [lit '5', repEx dP 2])]

/-- HTTP_5XX_STRUCTURED: `method=... path=/... status=5xx`. -/
def HTTP_5XX_STRUCTURED : Pat :=
  patCat [strOf "method=", .grp 1 methodAlt, plus sP,
          strOf "path=", .grp 2 (patCat [lit '/', plus (.ch nonSpaceChar)]),
          plus sP, strOf "status=", .grp 3 (patCat [lit '5', repEx dP 2])]

/-- HTTP_ENDPOINT_FAILED: `METHOD /path failed`, case-insensitively. -/
def HTTP_ENDPOINT_FAILED : Pat :=
  patCat [.grp 1 methodAltCI, plus sP,
          .grp 2 (patCat [lit '/', plus (.ch nonSpaceChar)]),
          plus sP, striOf "failed"]

/-- HTTP_4XX_PATTERN: a quoted `"METHOD /path"` followed by a 4xx status. -/
def HTTP_4XX_PATTERN : Pat :=
  patCat [lit '"', .grp 1 methodAlt, plus sP,
          .grp 2 (patCat [lit '/', .starL (.ch quotedPathChar)]),
          lit '"', .star sP, .grp 3 (patCat [lit '4', repEx dP 2])]

/-- HTTP_4XX_STRUCTURED: `method=... path=/... status=4xx`. -/
def HTTP_4XX_STRUCTURED : Pat :=
  patCat [strOf "method=", .grp 1 methodAlt, plus sP,
          strOf "path=", .grp 2 (patCat [lit '/', plus (.ch nonSpaceChar)]),
          plus sP, strOf "status=", .grp 3 (patCat [lit '4', repEx dP 2])]

/-- The generic quoted `"METHOD /path"` pattern of extractEndpoint. -/
def HTTP_GENERIC : Pat :=
  patCat [lit '"', .grp 1 methodAlt, plus sP,
          .grp 2 (patCat [lit '/', .starL (.ch quotedPathChar)]), lit '"']

/-- WARNING_PATTERNS of log-parser.ts. -/
def WARNING_PATTERNS : List Pat :=
  [ strOf "DeprecationWarning",
    strOf "ExperimentalWarning",
    bword "DEPRECATED",
    striOf "slow query",
    striOf "query took" ]

/-- WARN_MARKERS of log-parser.ts. -/
def WARN_MARKERS : List Pat :=
  [ striOf "[WARN]",
    striOf "[WRN]",
    striOf "[WARNING]",
    patCat [.bound, striOf "WARN:"],
    patCat [.bound, striOf "WARNING:"],
    patCat [striOf "\"level\"", .star sP, lit ':', .star sP, lit '"',
            striOf "warn", quest (striOf "ing"), lit '"'],
    patCat [.bound, striOf "level=warn", quest (striOf "ing"), .bound] ]

/-- The Rust panic pattern (thread quote dot-star quote panicked). -/
def rustPanicPat : Pat :=
  patCat [strOf "thread ", lit aposChar, .star dotP, lit aposChar, strOf " panicked"]

/-- INFRA_ERROR_PATTERNS of log-parser.ts. -/
def INFRA_ERROR_PATTERNS : List Pat :=
  [ bword "ECONNREFUSED",
    bword "ECONNRESET",
    bword "ETIMEDOUT",
    bword "ENOTFOUND",
    bword "EHOSTUNREACH",
    bwordCI "connection refused",
    bwordCI "timed out",
    bwordCI "deadline exceeded",
    bwordCI "pool exhausted",
    bwordCI "too many connections",
    bword "EMFILE",
    bword "ENOMEM",
    patCat [.bound, striOf "FATAL:", plus sP, striOf "too many connections", .bound],
    patCat [.bound, striOf "FATAL:", plus sP, striOf "password authentication failed", .bound],
    patCat [.bound, striOf "FATAL:", plus sP, striOf "database ", .star dotP,
            striOf " does not exist", .bound],
    patCat [.bound, striOf "FATAL:", plus sP, striOf "role ", .star dotP,
            striOf " does not exist", .bound],
    patCat [.bound, striOf "connection to server at ", .star dotP, striOf " failed", .bound],
    bwordCI "remaining connection slots are reserved",
    bwordCI "SSL connection has been closed unexpectedly",
    bwordCI "could not translate host name",
    bwordCI "no pg_hba.conf entry",
    bwordCI "connection terminated unexpectedly",
    patCat [.bound, striOf "prepared statement ", .star dotP, striOf " already exists", .bound],
    patCat [.bound, striOf "supabase", .star dotP, lit '5', repEx dP 2, .bound],
    patCat [.bound, striOf "Redis connection ", .star dotP, striOf " failed", .bound],
    bwordCI ("READONLY You can" ++ aposChar.toString ++ "t write against a read only"),
    bwordCI "NOAUTH Authentication required",
    bwordCI "connection pool timeout",
    bwordCI "query timeout",
    bwordCI "socket hang up",
    bwordCI "fetch failed",
    bwordCI "service unavailable",
    bwordCI "gateway timeout",
    bwordCI "bad gateway" ]

/-- PYTHON_ERROR_PATTERNS of log-parser.ts. -/
def PYTHON_ERROR_PATTERNS : List Pat :=
  [ bword "raise",
    patCat [.bound, strOf "Exception:"],
    strOf "Traceback (most recent call last):" ]

/-- JAVA_ERROR_PATTERNS of log-parser.ts. -/
def JAVA_ERROR_PATTERNS : List Pat :=
  [ strOf "Exception in thread",
    strOf "Caused by:" ]

/-- RUBY_ERROR_PATTERNS of log-parser.ts. -/
def RUBY_ERROR_PATTERNS : List Pat :=
  [ bword "RuntimeError",
    bword "NoMethodError",
    bword "ArgumentError",
    bword "NameError",
    bword "LoadError",
    patCat [.bound, strOf "ActiveRecord::"],
    patCat [.bound, strOf "ActionController::"] ]

/-- RUST_ERROR_PATTERNS of log-parser.ts. -/
def RUST_ERROR_PATTERNS : List Pat :=
  [ rustPanicPat,
    strOf "Result::unwrap()",
    strOf "stack backtrace:" ]

/-- PHP_ERROR_PATTERNS of log-parser.ts. -/
def PHP_ERROR_PATTERNS : List Pat :=
  [ patCat [.bound, strOf "Fatal error:"],
    patCat [.bound, strOf "Parse error:"],
    patCat [.bound, strOf "PHP Fatal"],
    patCat [.bound, strOf "PHP Warning"],
    patCat [.bound, strOf "PHP Notice"],
    patCat [.bound, strOf "Uncaught Exception"] ]

/-- The `System\.\w+Exception` pattern shared by the .NET lists. -/
def dotnetExcPat : Pat := patCat [strOf "System.", plus wP, strOf "Exception"]

/-- DOTNET_ERROR_PATTERNS of log-parser.ts. -/
def DOTNET_ERROR_PATTERNS : List Pat :=
  [ dotnetExcPat,
    bword "Unhandled exception",
    bword "NullReferenceException" ]

/-- INFO_LEVEL_OVERRIDES of log-parser.ts. -/
def INFO_LEVEL_OVERRIDES : List Pat :=
  [ logfmtLevel "info",
    logfmtLevel "debug",
    logfmtLevel "trace",
    jsonLevel "info",
    jsonLevel "debug",
    jsonLevel "trace",
    patCat [.bound, strOf "level=INFO", .bound],
    patCat [.bound, strOf "INFO", plus sP, strOf "source="] ]

/-- The `^\s+at\s+` pattern shared by several lists. -/
def atLinePat : Pat := patCat [.bol, plus sP, strOf "at", plus sP]

/-- STACK_TRACE_START_PATTERNS of log-parser.ts. -/
def STACK_TRACE_START_PATTERNS : List Pat :=
  [ atLinePat,
    patCat [.bol, strOf "Traceback"],
    patCat [.bol, strOf "goroutine", plus sP, plus dP],
    patCat [.bol, strOf "panic:"],
    rustPanicPat,
    patCat [.bol, strOf "stack backtrace:"],
    patCat [.bol, strOf "Fatal error:"],
    patCat [.bol, strOf "PHP Fatal"],
    patCat [.bol, strOf "Unhandled exception"] ]

/-- Does any pattern of the list match? (the for-loop of the source of
`RegExp.test` calls). -/
def anyMatch (ps : List Pat) (s : String) : Bool :=
  ps.any (fun p => searchTest p s)

/-! ### Log classification (src/server/services/railway/log-parser.ts) -/

/-- isInfoLevelOverride: the message carries a structured info/debug/trace
level marker. -/
def isInfoLevelOverride (message : String) : Bool :=
  anyMatch INFO_LEVEL_OVERRIDES message

/-- Read one capture group of a match as a string. -/
def capStr (caps : Caps) (i : Nat) : String := ⟨capGet caps i⟩

/-- extractEndpoint: try the endpoint patterns in source order, returning
`"METHOD /path"` built from the first two capture groups of the first hit. -/
def extractEndpoint (message : String) : Option String :=
  match searchCaps HTTP_5XX_PATTERN message with
  | some caps => some (capStr caps 1 ++ " " ++ capStr caps 2)
  | none =>
  match searchCaps HTTP_4XX_PATTERN message with
  | some caps => some (capStr caps 1 ++ " " ++ capStr caps 2)
  | none =>
  match searchCaps HTTP_5XX_STRUCTURED message with
  | some caps => some (capStr caps 1 ++ " " ++ capStr caps 2)
  | none =>
  match searchCaps HTTP_4XX_STRUCTURED message with
  | some caps => some (capStr caps 1 ++ " " ++ capStr caps 2)
  | none =>
  match searchCaps HTTP_ENDPOINT_FAILED message with
  | some caps => some (capStr caps 1 ++ " " ++ capStr caps 2)
  | none =>
  match searchCaps HTTP_GENERIC message with
  | some caps => some (capStr caps 1 ++ " " ++ capStr caps 2)
  | none => none

/-- classifySeverity: fatal patterns first, then the explicit
`[FATAL]`/`FATAL:` markers (case-insensitive), then every error-pattern
family, then 4xx and the warning families, defaulting to error. -/
def classifySeverity (message : String) : Severity :=
  if anyMatch FATAL_PATTERNS message then .fatal
  else if searchTest (striOf "[FATAL]") message
       || searchTest (patCat [.bound, striOf "FATAL:"]) message then .fatal
  else if anyMatch ERROR_MARKERS message then .error
  else if anyMatch UNCAUGHT_PATTERNS message then .error
  else if anyMatch EXIT_CODE_PATTERNS message then .error
  else if searchTest HTTP_5XX_PATTERN message
       || searchTest HTTP_5XX_STRUCTURED message then .error
  else if anyMatch PYTHON_ERROR_PATTERNS message then .error
  else if anyMatch JAVA_ERROR_PATTERNS message then .error
  else if anyMatch INFRA_ERROR_PATTERNS message then .error
  else if anyMatch RUBY_ERROR_PATTERNS message then .error
  else if anyMatch RUST_ERROR_PATTERNS message then .error
  else if anyMatch PHP_ERROR_PATTERNS message then .error
  else if anyMatch DOTNET_ERROR_PATTERNS message then .error
  else if searchTest HTTP_4XX_PATTERN message
       || searchTest HTTP_4XX_STRUCTURED message then .warn
  else if anyMatch WARNING_PATTERNS message then .warn
  else if anyMatch WARN_MARKERS message then .warn
  else .error

/-- The result record of isErrorLog. -/
structure ParsedLogLine : Type where
  isError : Bool
  severity : Severity
  parsedMessage : String
  endpoint : Option String
deriving DecidableEq, Repr

/-- isErrorLog: trim the line, drop it on a structured info/debug/trace
marker, then walk the rule families in source order.  The stack-start,
marker, uncaught, exit-code, Python and Java branches report
`classifySeverity`; the 5xx, infrastructure, Ruby, Rust, PHP and .NET
branches report error; the 4xx, warning and warn-marker branches report
warn; the final fatal branch reports fatal. -/
def isErrorLog (message : String) : ParsedLogLine :=
  let trimmed := jsTrim message
  if anyMatch INFO_LEVEL_OVERRIDES trimmed then
    ⟨false, .error, trimmed, none⟩
  else if anyMatch STACK_TRACE_START_PATTERNS trimmed then
    ⟨true, classifySeverity trimmed, trimmed, extractEndpoint trimmed⟩
  else if anyMatch ERROR_MARKERS trimmed then
    ⟨true, classifySeverity trimmed, trimmed, extractEndpoint trimmed⟩
  else if anyMatch UNCAUGHT_PATTERNS trimmed then
    ⟨true, classifySeverity trimmed, trimmed, extractEndpoint trimmed⟩
  else if searchTest HTTP_5XX_PATTERN trimmed
       || searchTest HTTP_5XX_STRUCTURED trimmed then
    ⟨true, .error, trimmed, extractEndpoint trimmed⟩
  else if searchTest HTTP_4XX_PATTERN trimmed
       || searchTest HTTP_4XX_STRUCTURED trimmed then
    ⟨true, .warn, trimmed, extractEndpoint trimmed⟩
  else if anyMatch EXIT_CODE_PATTERNS trimmed then
    ⟨true, classifySeverity trimmed, trimmed, extractEndpoint trimmed⟩
  else if anyMatch PYTHON_ERROR_PATTERNS trimmed then
    ⟨true, classifySeverity trimmed, trimmed, extractEndpoint trimmed⟩
  else if anyMatch JAVA_ERROR_PATTERNS trimmed then
    ⟨true, classifySeverity trimmed, trimmed, extractEndpoint trimmed⟩
  else if anyMatch INFRA_ERROR_PATTERNS trimmed then
    ⟨true, .error, trimmed, extractEndpoint trimmed⟩
  else if anyMatch RUBY_ERROR_PATTERNS trimmed then
    ⟨true, .error, trimmed, extractEndpoint trimmed⟩
  else if anyMatch RUST_ERROR_PATTERNS trimmed then
    ⟨true, .error, trimmed, extractEndpoint trimmed⟩
  else if anyMatch PHP_ERROR_PATTERNS trimmed then
    ⟨true, .error, trimmed, extractEndpoint trimmed⟩
  else if anyMatch DOTNET_ERROR_PATTERNS trimmed then
    ⟨true, .error, trimmed, extractEndpoint trimmed⟩
  else if anyMatch WARNING_PATTERNS trimmed then
    ⟨true, .warn, trimmed, extractEndpoint trimmed⟩
  else if anyMatch WARN_MARKERS trimmed then
    ⟨true, .warn, trimmed, extractEndpoint trimmed⟩
  else if anyMatch FATAL_PATTERNS trimmed then
    ⟨true, .fatal, trimmed, extractEndpoint trimmed⟩
  else
    ⟨false, .error, trimmed, none⟩

/-! ### Stack-trace assembler (src/server/services/railway/log-parser.ts) -/

/-- The trace-language union. -/
inductive TraceLanguage : Type where
  | nodejs : TraceLanguage
  | python : TraceLanguage
  | go : TraceLanguage
  | java : TraceLanguage
  | ruby : TraceLanguage
  | rust : TraceLanguage
  | php : TraceLanguage
  | dotnet : TraceLanguage
  | unknown : TraceLanguage
deriving DecidableEq, Repr

/-- The `^\s+File "` Python frame pattern. -/
def pyFilePat : Pat := patCat [.bol, plus sP, strOf "File \""]

/-- The `from \/.*\.rb:\d+` Ruby frame pattern. -/
def rubyFromPat : Pat := patCat [strOf "from /", .star dotP, strOf ".rb:", plus dP]

/-- JavaScript `trimStart`. -/
def trimStart (s : String) : String := ⟨s.data.dropWhile Char.isWhitespace⟩

/-- detectTraceLanguage of log-parser.ts. -/
def detectTraceLanguage (line : String) : TraceLanguage :=
  if searchTest atLinePat line then
    if searchTest (patCat [lit '(', .star dotP, strOf ".java:", plus dP, lit ')']) line
       || searchTest (patCat [lit '(', .star dotP, strOf ".kt:", plus dP, lit ')']) line then .java
    else if searchTest (patCat [.bound, strOf "at", plus sP, plus (.ch nonSpaceChar),
                                lit '.', plus (.ch nonSpaceChar), lit '(']) line
            && searchTest (strOf "System.") line then .dotnet
    else .nodejs
  else if searchTest (patCat [.bol, strOf "Traceback"]) line
       || searchTest pyFilePat line then .python
  else if searchTest (patCat [.bol, strOf "goroutine"]) line
       || searchTest (patCat [.bol, strOf "panic:"]) line then .go
  else if searchTest (strOf "Caused by:") line
       || searchTest (strOf "Exception in thread") line then .java
  else if searchTest rubyFromPat line
       || searchTest (strOf "RuntimeError") line
       || searchTest (strOf "NoMethodError") line
       || searchTest (strOf "ActiveRecord::") line then .ruby
  else if searchTest rustPanicPat line
       || searchTest (strOf "stack backtrace:") line then .rust
  else if searchTest (strOf "PHP Fatal") line
       || searchTest (strOf "Fatal error:") line
       || searchTest (strOf "Parse error:") line then .php
  else if searchTest dotnetExcPat line
       || searchTest (strOf "Unhandled exception") line then .dotnet
  else .unknown

/-- isStackTraceContinuation of log-parser.ts: language-specific
continuation rules, the cause chains, and the guarded generic indented
rule. -/
def isStackTraceContinuation (line : String) (language : TraceLanguage) : Bool :=
  let trimmed := trimStart line
  if searchTest atLinePat line then true
  else if language = .python
      ∧ (searchTest pyFilePat line
         || (searchTest (patCat [.bol, plus sP]) line && trimmed.length > 0)
         || searchTest (patCat [plus wP, strOf "Error:"]) trimmed
         || searchTest (patCat [plus wP, strOf "Exception:"]) trimmed) then true
  else if language = .go
      ∧ ((searchTest (patCat [.bol, plus sP]) line && trimmed.length > 0)
         || searchTest (patCat [.bol, strOf "goroutine"]) trimmed
         || searchTest (patCat [.bol, lit '\t']) line
         || searchTest (patCat [strOf ".go:", plus dP]) trimmed) then true
  else if (language = .java
           ∨ searchTest (strOf "Caused by:") trimmed = true
           ∨ searchTest (patCat [.bol, plus sP, strOf "...", plus sP, plus dP,
                                 plus sP, strOf "more"]) line = true)
      ∧ (searchTest atLinePat line
         || searchTest (strOf "Caused by:") trimmed
         || searchTest (patCat [.bol, plus sP, strOf "...", plus sP, plus dP,
                                plus sP, strOf "more"]) line) then true
  else if (language = .ruby ∨ searchTest (strOf "from /") trimmed = true)
      ∧ searchTest (patCat [.bol, plus sP, strOf "from /"]) line then true
  else if language = .rust
      ∧ (searchTest (patCat [.bol, plus sP, strOf "at src/"]) line
         || searchTest (patCat [.bol, plus sP, plus dP, lit ':']) line) then true
  else if language = .php
      ∧ searchTest (patCat [.bol, .star sP, lit '#', plus dP, plus sP]) line then true
  else if language = .dotnet
      ∧ (searchTest (patCat [.bol, plus sP, strOf "at", plus sP, plus (.ch nonSpaceChar),
                             lit '.', plus (.ch nonSpaceChar)]) line
         || searchTest (patCat [.bol, strOf "---", plus sP, strOf "End of"]) trimmed) then true
  else if searchTest (strOf "[cause]:") trimmed then true
  else if searchTest (strOf "Caused by:") trimmed then true
  else if searchTest (patCat [.bol, repGe sP 2]) line && trimmed.length > 0 then
    if searchTest (patCat [.bol, repEx dP 4, lit '-', repEx dP 2, lit '-', repEx dP 2]) trimmed
    then false
    else if searchTest (patCat [.bol, lit '[']) trimmed && searchTest (lit ']') trimmed
    then false
    else true
  else false

/-- The record a finished assembly produces. -/
structure CompleteError : Type where
  message : String
  stackTrace : String
  severity : Severity
  endpoint : Option String
  rawLog : String
deriving DecidableEq, Repr

/-- The assembler states (the source declares DONE but never enters it). -/
inductive AssemblerState : Type where
  | IDLE : AssemblerState
  | COLLECTING : AssemblerState
  | DONE : AssemblerState
deriving DecidableEq, Repr

/-- The buffer cap of the assembler. -/
def MAX_BUFFER_LINES : Nat := 100

/-- The idle-flush window of the assembler in milliseconds. -/
def ASSEMBLY_TIMEOUT_MS : Nat := 2000

/-- The mutable fields of one StackTraceAssembler (the pending timer is
represented by the timestamp bookkeeping alone: the model expresses the
line-driven paths, where the timer is always cancelled and re-armed). -/
structure AssemblerSt : Type where
  state : AssemblerState
  buffer : List String
  errorMessage : String
  severity : Severity
  endpoint : Option String
  rawLogFirstLine : String
  language : TraceLanguage
  lastLineTimestamp : Nat
deriving DecidableEq, Repr

/-- A fresh assembler; also the result of reset(). -/
def initAssembler : AssemblerSt :=
  { state := .IDLE, buffer := [], errorMessage := "", severity := .error,
    endpoint := none, rawLogFirstLine := "", language := .unknown,
    lastLineTimestamp := 0 }

/-- flush: outside COLLECTING or with an empty buffer, reset and produce
nothing; otherwise produce the buffered trace joined with newlines and
reset. -/
def flush (st : AssemblerSt) : Option CompleteError × AssemblerSt :=
  if st.state ≠ .COLLECTING ∨ st.buffer = [] then (none, initAssembler)
  else
    (some { message := st.errorMessage
            stackTrace := joinSep "\n" st.buffer
            severity := st.severity
            endpoint := st.endpoint
            rawLog := st.rawLogFirstLine },
     initAssembler)

/-- isStackTraceEntry of log-parser.ts: does a line open a multi-line
trace? -/
def isStackTraceEntry (message : String) : Bool :=
  let trimmed := jsTrim message
  if searchTest (patCat [.star wP, .alt (strOf "Error:") (strOf "Exception:")]) trimmed then true
  else if searchTest atLinePat trimmed then true
  else if searchTest (patCat [.bol, strOf "Uncaught"]) trimmed then true
  else if searchTest (patCat [.bol, strOf "unhandledRejection"]) trimmed then true
  else if searchTest (patCat [.bol, strOf "Traceback"]) trimmed then true
  else if searchTest (patCat [.bol, strOf "panic:"]) trimmed then true
  else if searchTest (patCat [.bol, strOf "goroutine", plus sP, plus dP]) trimmed then true
  else if searchTest (patCat [.bol, strOf "Exception in thread"]) trimmed then true
  else if searchTest rubyFromPat trimmed then true
  else if searchTest rustPanicPat trimmed then true
  else if searchTest (strOf "stack backtrace:") trimmed then true
  else if searchTest (patCat [.bol, strOf "Fatal error:"]) trimmed then true
  else if searchTest (patCat [.bol, strOf "PHP Fatal"]) trimmed then true
  else if searchTest (patCat [.bol, strOf "Unhandled exception"]) trimmed then true
  else if searchTest dotnetExcPat trimmed then true
  else false

/-- inferLanguage of log-parser.ts (the fallback when detectTraceLanguage
says unknown). -/
def inferLanguage (message : String) : TraceLanguage :=
  if searchTest (patCat [.star wP, patAny [strOf "Error:", strOf "TypeError:",
                                           strOf "ReferenceError:"]]) message then .nodejs
  else if searchTest (strOf "Traceback") message then .python
  else if searchTest (strOf "panic:") message then .go
  else if searchTest (strOf "Exception in thread") message then .java
  else if searchTest (strOf "RuntimeError") message
       || searchTest (strOf "NoMethodError") message
       || searchTest (strOf "ActiveRecord::") message then .ruby
  else if searchTest rustPanicPat message
       || searchTest (strOf "Result::unwrap()") message then .rust
  else if searchTest (strOf "PHP Fatal") message
       || searchTest (strOf "Fatal error:") message
       || searchTest (strOf "Parse error:") message then .php
  else if searchTest dotnetExcPat message
       || searchTest (strOf "Unhandled exception") message then .dotnet
  else .unknown

/-- processFromIdle: ignore non-errors; open a collection on a trace-start
line (recording message, severity, endpoint, raw first line and inferred
language); return a single-line completed error otherwise. -/
def processFromIdle (st : AssemblerSt) (message : String) (timestamp : Nat) :
    Option CompleteError × AssemblerSt :=
  let parsed := isErrorLog message
  if !parsed.isError then (none, st)
  else
    let language := detectTraceLanguage message
    if isStackTraceEntry message then
      (none,
       { state := .COLLECTING
         buffer := [message]
         errorMessage := parsed.parsedMessage
         severity := parsed.severity
         endpoint := match parsed.endpoint with
           | some e => some e
           | none => extractEndpoint message
         rawLogFirstLine := message
         language := if language ≠ .unknown then language else inferLanguage message
         lastLineTimestamp := timestamp })
    else
      (some { message := parsed.parsedMessage
              stackTrace := message
              severity := parsed.severity
              endpoint := match parsed.endpoint with
                | some e => some e
                | none => extractEndpoint message
              rawLog := message },
       st)

/-- processWhileCollecting: append a continuation line (flushing instead
when the 100-line buffer is already full, discarding the line), append a
cause-chain line when there is room, and otherwise flush — dispatching the
flushed trace through the completion handler — and re-process the line from
IDLE.  The middle component collects the completion-handler dispatches. -/
def processWhileCollecting (st : AssemblerSt) (message : String) (timestamp : Nat) :
    Option CompleteError × List CompleteError × AssemblerSt :=
  if isStackTraceContinuation message st.language then
    if st.buffer.length ≥ MAX_BUFFER_LINES then
      ((flush st).1, [], (flush st).2)
    else
      (none, [],
       { st with
         buffer := st.buffer ++ [message]
         lastLineTimestamp := timestamp
         endpoint := match st.endpoint with
           | some e => some e
           | none => extractEndpoint message })
  else if (searchTest (strOf "[cause]:") message
           || (searchTest (strOf "Caused by:") message && st.language ≠ .unknown))
       ∧ st.buffer.length < MAX_BUFFER_LINES then
    (none, [],
     { st with buffer := st.buffer ++ [message], lastLineTimestamp := timestamp })
  else
    ((processFromIdle (flush st).2 message timestamp).1,
     (match (flush st).1 with
      | some c => [c]
      | none => []),
     (processFromIdle (flush st).2 message timestamp).2)

/-- feed: compute `now` (a zero timestamp falls back to the wall clock as
`timestamp || Date.now()` does), flush through the completion handler when
more than 2000 ms passed since the last collected line and restart from
IDLE, and otherwise take the IDLE or COLLECTING path.  Returns the value
handed to the caller, the list of completion-handler dispatches, and the
new assembler state. -/
def feed (st : AssemblerSt) (message : String) (timestamp wallClock : Nat) :
    Option CompleteError × List CompleteError × AssemblerSt :=
  let now := if timestamp = 0 then wallClock else timestamp
  if st.state = .COLLECTING ∧ st.lastLineTimestamp > 0
     ∧ now - st.lastLineTimestamp > ASSEMBLY_TIMEOUT_MS then
    ((processFromIdle (flush st).2 message now).1,
     (match (flush st).1 with
      | some c => [c]
      | none => []),
     (processFromIdle (flush st).2 message now).2)
  else if st.state = .IDLE then
    ((processFromIdle st message now).1, [], (processFromIdle st message now).2)
  else if st.state = .COLLECTING then
    processWhileCollecting st message now
  else (none, [], st)

/-! ### Store operations (src/server/services/error-store.ts) -/

/-- The summary record rowToSummary projects out of a row. -/
structure ErrorSummary : Type where
  id : String
  serviceName : String
  message : String
  severity : Severity
  status : ErrorStatus
  endpoint : Option String
  fingerprint : String
  firstSeenAt : Nat
  lastSeenAt : Nat
  occurrenceCount : Nat
deriving DecidableEq, Repr

/-- rowToSummary / errorToSummary: project a row to its summary. -/
def rowToSummary (r : ErrorRow) : ErrorSummary :=
  { id := r.id
    serviceName := r.serviceName
    message := r.message
    severity := r.severity
    status := r.status
    endpoint := r.endpoint
    fingerprint := r.fingerprint
    firstSeenAt := r.firstSeenAt
    lastSeenAt := r.lastSeenAt
    occurrenceCount := r.occurrenceCount }

/-- The VALID_STATUSES list guarding updateErrorStatus. -/
def VALID_STATUSES : List ErrorStatus :=
  [.new, .investigating, .inProgress, .resolved]

/-- updateErrorStatus: reject an invalid status, look the row up by id,
set `status` and `statusChangedAt := now` unconditionally, re-read and
return the summary.  Returns the summary (or `none` for the miss) together
with the updated table. -/
def updateErrorStatus (id : String) (status : ErrorStatus) (now : Nat)
    (rows : List ErrorRow) : Option ErrorSummary × List ErrorRow :=
  if ¬ (VALID_STATUSES.contains status) then (none, rows)
  else
    match rows.find? (fun r => r.id == id) with
    | none => (none, rows)
    | some _ =>
        let rows2 := rows.map (fun r =>
          if r.id == id then { r with status := status, statusChangedAt := now } else r)
        match rows2.find? (fun r => r.id == id) with
        | none => (none, rows2)
        | some updated => (some (rowToSummary updated), rows2)

/-- deleteByRetention: compute the cutoff `now - days·86400000`, collect the
ids of the rows whose lastSeenAt is at or before it, delete those rows, and
return the ids (an empty result leaves the table untouched). -/
def deleteByRetention (now : Nat) (retentionDays : Nat) (rows : List ErrorRow) :
    List String × List ErrorRow :=
  let cutoff : Int := (now : Int) - (retentionDays : Int) * 86400000
  let toDelete := rows.filter (fun r => (r.lastSeenAt : Int) ≤ cutoff)
  if toDelete.length = 0 then ([], rows)
  else (toDelete.map (fun r => r.id),
        rows.filter (fun r => ¬ ((r.lastSeenAt : Int) ≤ cutoff)))

/-! ### Retention sweeper (src/server/services/retention.ts) -/

/-- The SSE event union, with the payloads the verified properties need. -/
inductive SSEEventM : Type where
  | newError : ErrorSummary → SSEEventM
  | errorUpdated : ErrorSummary → SSEEventM
  | errorCleared : List String → SSEEventM
  | bulkCleared : SSEEventM
  | authExpired : SSEEventM
deriving DecidableEq, Repr

/-- getRetentionDays: the parsed JSON value of the `retention_days` setting
(`none` for a missing row, an unparsable value or a non-number) is used when
it lies in [1, 90]; everything else falls back to 7. -/
def getRetentionDays (settingValue : Option Int) : Int :=
  match settingValue with
  | some days => if 1 ≤ days ∧ days ≤ 90 then days else 7
  | none => 7

/-- runRetentionCleanup: read the retention window, delete by retention,
and — when a broadcast function is registered — publish one `error-cleared`
event carrying the id list when at most 100 rows were deleted, one
`bulk-cleared` event otherwise, and nothing when nothing was deleted.
Returns the updated table and the list of published events. -/
def runRetentionCleanup (broadcastRegistered : Bool) (settingValue : Option Int)
    (now : Nat) (rows : List ErrorRow) : List ErrorRow × List SSEEventM :=
  let retentionDays := (getRetentionDays settingValue).toNat
  let deleted := deleteByRetention now retentionDays rows
  let deletedIds := deleted.1
  let rows2 := deleted.2
  if deletedIds.length = 0 then (rows2, [])
  else if broadcastRegistered then
    if deletedIds.length ≤ 100 then (rows2, [SSEEventM.errorCleared deletedIds])
    else (rows2, [SSEEventM.bulkCleared])
  else (rows2, [])

/-! ### SSE hub broadcast (src/server/plugins/sse.ts)

One registered dashboard connection is its id plus the droppedMessages
counter; the kernel-buffer behaviour of `response.write` during one
broadcast is abstracted as an outcome per connection id.  `closeConnection`
removes the entry from the registry (the `response.end()` side effect has
no bearing on the registry). -/

/-- Outcome of one `response.write` call: flushed (`write` returned true),
backpressure (`write` returned false), or a thrown exception. -/
inductive WriteOutcome : Type where
  | flushed : WriteOutcome
  | backpressure : WriteOutcome
  | threw : WriteOutcome
deriving DecidableEq, Repr

/-- One registered SSE connection (the fields broadcast reads and writes). -/
structure SSEConn : Type where
  id : String
  droppedMessages : Nat
deriving DecidableEq, Repr

/-- broadcast: walk the registry in order; a flushed write leaves the entry
alone; backpressure bumps droppedMessages and evicts the client as soon as
the counter exceeds 50; a thrown write evicts immediately. -/
def broadcast (w : String → WriteOutcome) : List SSEConn → List SSEConn
  | [] => []
  | c :: rest =>
      match w c.id with
      | .flushed => c :: broadcast w rest
      | .backpressure =>
          let d := c.droppedMessages + 1
          if d > 50 then broadcast w rest
          else { c with droppedMessages := d } :: broadcast w rest
      | .threw => broadcast w rest

/-! ### Circuit breaker and HTTP guard (src/server/services/railway/client.ts) -/

/-- The three circuit states. -/
inductive CircuitState : Type where
  | CLOSED : CircuitState
  | OPEN : CircuitState
  | HALF_OPEN : CircuitState
deriving DecidableEq, Repr

/-- The mutable fields of the CircuitBreaker class. -/
structure CircuitBreaker : Type where
  state : CircuitState
  consecutiveFailures : Nat
  lastFailureAt : Option Nat
  lastSuccessAt : Option Nat
  authError : Bool
deriving DecidableEq, Repr

/-- The initial breaker. -/
def CircuitBreaker.init : CircuitBreaker :=
  { state := .CLOSED, consecutiveFailures := 0, lastFailureAt := none,
    lastSuccessAt := none, authError := false }

/-- The failure threshold (5) and the reset timeout (60000 ms). -/
def cbThreshold : Nat := 5

/-- The OPEN-to-HALF_OPEN reset timeout in milliseconds. -/
def cbResetTimeoutMs : Nat := 60000

/-- getState at wall-clock `now`: an OPEN breaker whose last failure is at
least 60 s old moves to HALF_OPEN (the check `this.lastFailureAt && ...`
is JavaScript-truthy, so a last failure recorded at epoch 0 would not
qualify; `Date.now() - t` below 0 truncates to 0 here, and a negative gap
fails the comparison in the source the same way).  Returns the observed
state together with the (possibly updated) breaker. -/
def cbGetState (now : Nat) (cb : CircuitBreaker) : CircuitState × CircuitBreaker :=
  if cb.state = .OPEN then
    match cb.lastFailureAt with
    | some t =>
        if t ≠ 0 ∧ now - t ≥ cbResetTimeoutMs then
          (.HALF_OPEN, { cb with state := .HALF_OPEN })
        else (cb.state, cb)
    | none => (cb.state, cb)
  else (cb.state, cb)

/-- isOpen at wall-clock `now` (with the getState side effect). -/
def cbIsOpen (now : Nat) (cb : CircuitBreaker) : Bool × CircuitBreaker :=
  let r := cbGetState now cb
  (r.1 = .OPEN, r.2)

/-- recordSuccess: clear the failure streak, stamp the success, and close a
HALF_OPEN breaker. -/
def cbRecordSuccess (now : Nat) (cb : CircuitBreaker) : CircuitBreaker :=
  { cb with
    consecutiveFailures := 0
    lastSuccessAt := some now
    lastFailureAt := none
    state := if cb.state = .HALF_OPEN then .CLOSED else cb.state }

/-- recordFailure: 401/403 only latch the sticky auth flag; any other
failure bumps the streak and stamps the failure time, reopens a HALF_OPEN
breaker immediately, and opens the breaker once the streak reaches the
threshold. -/
def cbRecordFailure (statusCode : Option Nat) (now : Nat) (cb : CircuitBreaker) :
    CircuitBreaker :=
  if statusCode = some 401 ∨ statusCode = some 403 then
    { cb with authError := true }
  else
    let cf := cb.consecutiveFailures + 1
    let cb2 := { cb with consecutiveFailures := cf, lastFailureAt := some now }
    if cb.state = .HALF_OPEN then { cb2 with state := .OPEN }
    else if cf ≥ cbThreshold then { cb2 with state := .OPEN }
    else cb2

/-- The rate-limit tracker fields. -/
structure RateLimitInfo : Type where
  remaining : Option Int
  limit : Option Int
  resetsAt : Option Nat
deriving DecidableEq, Repr

/-- isRateLimited: a known non-positive remaining budget before the known
reset time. -/
def isRateLimited (now : Nat) (rl : RateLimitInfo) : Bool :=
  match rl.remaining with
  | some rem =>
      if rem ≤ 0 then
        match rl.resetsAt with
        | some resetsAt => resetsAt ≠ 0 && now < resetsAt
        | none => false
      else false
  | none => false

/-- How one attempted platform request ends, as far as the breaker is
concerned, when it is actually sent. -/
inductive CallOutcome : Type where
  | httpStatus : Nat → CallOutcome
  | networkError : CallOutcome
  | graphqlAuthError : CallOutcome
  | graphqlErrorNoData : CallOutcome
  | success : CallOutcome
deriving DecidableEq, Repr

/-- The breaker bookkeeping railwayHttpClient performs on the outcome of a sent request: 429 and 401/403 and other non-2xx statuses record failures with
their status code, in-band GraphQL auth errors record a 401, GraphQL errors
without data record a 500, network errors and timeouts record an untyped
failure, and a success records success. -/
def applyOutcome (outcome : CallOutcome) (now : Nat) (cb : CircuitBreaker) :
    CircuitBreaker :=
  match outcome with
  | .httpStatus status =>
      if status = 429 then cbRecordFailure (some 429) now cb
      else if status = 401 ∨ status = 403 then cbRecordFailure (some status) now cb
      else if ¬ (200 ≤ status ∧ status ≤ 299) then cbRecordFailure (some status) now cb
      else cb
  | .networkError => cbRecordFailure none now cb
  | .graphqlAuthError => cbRecordFailure (some 401) now cb
  | .graphqlErrorNoData => cbRecordFailure (some 500) now cb
  | .success => cbRecordSuccess now cb

/-- The guard sequence of railwayHttpClient: refuse (throwing, without
sending) when the breaker reads OPEN, when the auth latch is set, or when
rate-limited; otherwise send and apply the bookkeeping of the outcome.  The
returned Bool is `true` exactly when a request went out on the wire. -/
def attemptRequest (now : Nat) (rl : RateLimitInfo) (outcome : CallOutcome)
    (cb : CircuitBreaker) : Bool × CircuitBreaker :=
  let g := cbIsOpen now cb
  if g.1 then (false, g.2)
  else if g.2.authError then (false, g.2)
  else if isRateLimited now rl then (false, g.2)
  else (true, applyOutcome outcome now g.2)

/-- recordFailure applied `k` times with an untyped (transient) status code,
all at the same wall-clock time: the shape of `k` consecutive transient
failures. -/
def failN : Nat → Nat → CircuitBreaker → CircuitBreaker
  | 0, _, cb => cb
  | k + 1, now, cb => failN k now (cbRecordFailure none now cb)

/-! ### Helper definitions for the verified statements -/

/-- The row processError inserts on a first sighting. -/
def freshRow (genId : String) (now : Nat) (input : ProcessErrorInput) : ErrorRow :=
  { id := genId
    serviceName := input.serviceName
    deploymentId := input.deploymentId
    message := input.message
    stackTrace := input.stackTrace
    severity := input.severity
    status := .new
    endpoint := input.endpoint
    rawLog := input.rawLog
    source := input.source
    metadata := input.metadata
    fingerprint := inputFingerprint input
    firstSeenAt := now
    lastSeenAt := now
    occurrenceCount := 1
    statusChangedAt := now
    createdAt := now }

/-- The binary maximum under the ordering warn < error < fatal, as the
specification states severity escalation. -/
def sevMax (a b : Severity) : Severity :=
  if severityOrder a ≤ severityOrder b then b else a

/-- Modelled from the claim (C6): the asserted severity precedence — any
fatal pattern wins, then the explicit `[FATAL]`/`FATAL:` markers, then any
error pattern gives error, then a 4xx or warning pattern gives warn, and
error is the default. -/
def claimedSeverityPrecedence (line : String) : Severity :=
  if anyMatch FATAL_PATTERNS line then .fatal
  else if searchTest (striOf "[FATAL]") line
       || searchTest (patCat [.bound, striOf "FATAL:"]) line then .fatal
  else if anyMatch ERROR_MARKERS line || anyMatch UNCAUGHT_PATTERNS line
       || anyMatch EXIT_CODE_PATTERNS line
       || searchTest HTTP_5XX_PATTERN line || searchTest HTTP_5XX_STRUCTURED line
       || anyMatch PYTHON_ERROR_PATTERNS line || anyMatch JAVA_ERROR_PATTERNS line
       || anyMatch INFRA_ERROR_PATTERNS line || anyMatch RUBY_ERROR_PATTERNS line
       || anyMatch RUST_ERROR_PATTERNS line || anyMatch PHP_ERROR_PATTERNS line
       || anyMatch DOTNET_ERROR_PATTERNS line then .error
  else if searchTest HTTP_4XX_PATTERN line || searchTest HTTP_4XX_STRUCTURED line
       || anyMatch WARNING_PATTERNS line || anyMatch WARN_MARKERS line then .warn
  else .error

/-- Modelled from the amended claim (C6): the severity isErrorLog actually
reports, described rule by rule — the branches that defer to
classifySeverity (stack-start, explicit markers, uncaught, exit-code,
Python, Java) follow the claimed precedence, while the 5xx, infra, Ruby,
Rust, PHP and .NET branches fix error, the 4xx, deprecation and warn-marker
branches fix warn, the final fatal branch fixes fatal, and non-error lines
carry the default error. -/
def ruleBasedSeverity (message : String) : Severity :=
  let trimmed := jsTrim message
  if anyMatch INFO_LEVEL_OVERRIDES trimmed then .error
  else if anyMatch STACK_TRACE_START_PATTERNS trimmed then classifySeverity trimmed
  else if anyMatch ERROR_MARKERS trimmed then classifySeverity trimmed
  else if anyMatch UNCAUGHT_PATTERNS trimmed then classifySeverity trimmed
  else if searchTest HTTP_5XX_PATTERN trimmed
       || searchTest HTTP_5XX_STRUCTURED trimmed then .error
  else if searchTest HTTP_4XX_PATTERN trimmed
       || searchTest HTTP_4XX_STRUCTURED trimmed then .warn
  else if anyMatch EXIT_CODE_PATTERNS trimmed then classifySeverity trimmed
  else if anyMatch PYTHON_ERROR_PATTERNS trimmed then classifySeverity trimmed
  else if anyMatch JAVA_ERROR_PATTERNS trimmed then classifySeverity trimmed
  else if anyMatch INFRA_ERROR_PATTERNS trimmed then .error
  else if anyMatch RUBY_ERROR_PATTERNS trimmed then .error
  else if anyMatch RUST_ERROR_PATTERNS trimmed then .error
  else if anyMatch PHP_ERROR_PATTERNS trimmed then .error
  else if anyMatch DOTNET_ERROR_PATTERNS trimmed then .error
  else if anyMatch WARNING_PATTERNS trimmed then .warn
  else if anyMatch WARN_MARKERS trimmed then .warn
  else if anyMatch FATAL_PATTERNS trimmed then .fatal
  else .error

/-- Representative stack-trace lines, one or more per normalization rule,
on which the second application of normalizeStackTrace is checked to be the
identity. -/
def normalizeIdempotentExamples : List String :=
  [ "TypeError: x",
    "    at handler (/app/src/server/routes.ts:42:10)",
    "    at Object.run (node:internal/modules/run_main:77:12)",
    "Error at 2026-02-11T14:30:00.000Z pid=12345 thread-42",
    "req 123e4567-e89b-12d3-a456-426614174000 failed 0x7fff5fbff8a0",
    "goroutine 42 [running] localhost:3000",
    "  File \"/usr/app/main.py\", line 12, in run",
    "epoch 1700000000123 end",
    "2026/02/11 14:30:00 boom" ]

/-! ### Concrete fixtures used by the witness theorems -/

/-- A direct-ingestion input without a stack trace. -/
def inputW : ProcessErrorInput :=
  { serviceName := "api", deploymentId := "dep-1", message := "boom",
    stackTrace := none, severity := .warn, endpoint := none,
    rawLog := "boom", source := .direct, metadata := none }

/-- The same logical error arriving again with a higher severity. -/
def inputW2 : ProcessErrorInput :=
  { inputW with deploymentId := "dep-2", severity := .fatal }

/-- A first call fixture. -/
def callW1 : GrouperCall := { genId := "id-1", now := 1000, input := inputW }

/-- A second call fixture with the same fingerprint. -/
def callW2 : GrouperCall := { genId := "id-2", now := 2000, input := inputW2 }

/-- A stored row fixture with severity error. -/
def rowW : ErrorRow := freshRow "id-0" 500 { inputW with severity := .error }

/-- A stored row fixture whose status is resolved. -/
def rowWres : ErrorRow := { rowW with status := .resolved }

/-- An OPEN circuit breaker fixture that failed at time 10000. -/
def cbW : CircuitBreaker :=
  { state := .OPEN, consecutiveFailures := 5, lastFailureAt := some 10000,
    lastSuccessAt := none, authError := false }

/-- A rate-limit fixture with budget left. -/
def rlW : RateLimitInfo := { remaining := some 50, limit := some 100, resetsAt := none }

/-- A COLLECTING assembler fixture whose buffer is full. -/
def stW : AssemblerSt :=
  { state := .COLLECTING, buffer := List.replicate 100 "    at f (a.ts:1:1)",
    errorMessage := "TypeError: x", severity := .error, endpoint := none,
    rawLogFirstLine := "TypeError: x", language := .nodejs,
    lastLineTimestamp := 1000 }

/-- An SSE connection fixture on the edge of eviction. -/
def connW : SSEConn := { id := "sse-1", droppedMessages := 50 }

/-- A write-outcome fixture reporting backpressure for every client. -/
def wW : String → WriteOutcome := fun _ => .backpressure

/-! ## Helper lemmas -/

/-- find? skips a prefix on which the predicate is everywhere false. -/
theorem find?_append_none {α : Type} (p : α → Bool) (l1 l2 : List α)
    (h : ∀ a ∈ l1, p a = false) : (l1 ++ l2).find? p = l2.find? p := by
  induction l1 with
  | nil => rfl
  | cons a t ih =>
      have ha : p a = false := h a (List.mem_cons_self a t)
      simp only [List.cons_append, List.find?, ha]
      exact ih (fun x hx => h x (List.mem_cons_of_mem a hx))

/-- map is the identity on a list all of whose elements are fixed. -/
theorem map_id_of_fixed {α : Type} (f : α → α) (l : List α)
    (h : ∀ a ∈ l, f a = a) : l.map f = l := by
  induction l with
  | nil => rfl
  | cons a t ih =>
      simp only [List.map, h a (List.mem_cons_self a t)]
      rw [ih (fun x hx => h x (List.mem_cons_of_mem a hx))]

/-- broadcast distributes over append (it acts client by client). -/
theorem broadcast_append (w : String → WriteOutcome) (l1 l2 : List SSEConn) :
    broadcast w (l1 ++ l2) = broadcast w l1 ++ broadcast w l2 := by
  induction l1 with
  | nil => rfl
  | cons c rest ih =>
      cases hw : w c.id with
      | flushed => simp [broadcast, hw, ih]
      | backpressure =>
          by_cases hd : c.droppedMessages + 1 > 50 <;> simp [broadcast, hw, hd, ih]
      | threw => simp [broadcast, hw, ih]

/-! ## The verified claims -/

/-- C7: in one retention-cleanup pass with a broadcast function registered,
the published events are exactly: none when deleteByRetention returned no
ids, one error-cleared event carrying exactly the returned id list when it
returned between 1 and 100 ids, and one bulk-cleared event when it returned
more than 100. -/
theorem c7_retention_coalesced_events (settingValue : Option Int) (now : Nat)
    (rows : List ErrorRow) :
    (runRetentionCleanup true settingValue now rows).2 =
      (if (deleteByRetention now (getRetentionDays settingValue).toNat rows).1 = [] then []
       else if (deleteByRetention now (getRetentionDays settingValue).toNat rows).1.length ≤ 100 then
         [SSEEventM.errorCleared
            (deleteByRetention now (getRetentionDays settingValue).toNat rows).1]
       else [SSEEventM.bulkCleared]) := by
  by_cases h0 : (deleteByRetention now (getRetentionDays settingValue).toNat rows).1 = []
  · simp [runRetentionCleanup, h0]
  · by_cases h1 :
        (deleteByRetention now (getRetentionDays settingValue).toNat rows).1.length ≤ 100 <;>
      simp [runRetentionCleanup, h0, h1, List.length_eq_zero]

/-- C8: during one broadcast, a client whose write throws is evicted
immediately; a backpressured client has droppedMessages incremented and is
evicted exactly when the counter exceeds 50 after the increment (so a
client at 50 drops is removed by the very broadcast that pushes it over);
a flushed client is untouched; and a registry whose clients are all at or
below 50 drops stays that way, so no registered client ever exceeds 50
between broadcasts. -/
theorem c8_backpressure_eviction (w : String → WriteOutcome) (pre post : List SSEConn)
    (c : SSEConn) :
    (w c.id = .threw → broadcast w (pre ++ c :: post) = broadcast w pre ++ broadcast w post) ∧
    (w c.id = .backpressure → 50 < c.droppedMessages + 1 →
      broadcast w (pre ++ c :: post) = broadcast w pre ++ broadcast w post) ∧
    (w c.id = .backpressure → c.droppedMessages + 1 ≤ 50 →
      broadcast w (pre ++ c :: post) =
        broadcast w pre ++ { c with droppedMessages := c.droppedMessages + 1 } :: broadcast w post) ∧
    (w c.id = .flushed → broadcast w (pre ++ c :: post) = broadcast w pre ++ c :: broadcast w post) ∧
    (∀ conns : List SSEConn, (∀ x ∈ conns, x.droppedMessages ≤ 50) →
      ∀ x ∈ broadcast w conns, x.droppedMessages ≤ 50) := by
  refine ⟨?_, ?_, ?_, ?_, ?_⟩
  · intro hw
    rw [broadcast_append]
    simp only [broadcast, hw]
  · intro hw hd
    rw [broadcast_append]
    simp only [broadcast, hw, if_pos hd]
  · intro hw hd
    rw [broadcast_append]
    simp only [broadcast, hw, if_neg (Nat.not_lt.mpr hd)]
  · intro hw
    rw [broadcast_append]
    simp only [broadcast, hw]
  · intro conns
    induction conns with
    | nil => intro _ x hx; simp [broadcast] at hx
    | cons a rest ih =>
        intro h x hx
        have ha := h a (List.mem_cons_self a rest)
        have hr : ∀ y ∈ rest, y.droppedMessages ≤ 50 :=
          fun y hy => h y (List.mem_cons_of_mem a hy)
        cases hw : w a.id with
        | flushed =>
            rw [broadcast, hw] at hx
            rcases List.mem_cons.mp hx with rfl | hx2
            · exact ha
            · exact ih hr x hx2
        | backpressure =>
            rw [broadcast, hw] at hx
            by_cases hd : a.droppedMessages + 1 > 50
            · rw [if_pos hd] at hx
              exact ih hr x hx
            · rw [if_neg hd] at hx
              rcases List.mem_cons.mp hx with rfl | hx2
              · exact Nat.not_lt.mp hd
              · exact ih hr x hx2
        | threw =>
            rw [broadcast, hw] at hx
            exact ih hr x hx

/-- C8 witness: a client already at 50 drops is removed by the broadcast in
which its write fails to flush. -/
theorem c8_backpressure_eviction_witness : broadcast wW [connW] = [] := by
  have h := (c8_backpressure_eviction wW [] [] connW).2.1 rfl (by decide)
  simpa using h

/-- C9: when the assembler is COLLECTING with a full 100-line buffer, no
idle timeout has elapsed, and the next line qualifies as a continuation of
the current trace, feed flushes and returns exactly the 100 buffered lines,
dispatches nothing through the completion handler, and resets to IDLE with
an empty buffer — the triggering continuation line is discarded entirely:
it appears neither in the flushed trace nor in the next state, and it is
not reprocessed. -/
theorem c9_full_buffer_discards_line (st : AssemblerSt) (message : String)
    (ts wall : Nat)
    (hstate : st.state = .COLLECTING)
    (hbuf : st.buffer.length = 100)
    (_hlast : st.lastLineTimestamp > 0)
    (htz : ts ≠ 0)
    (hgap : ts - st.lastLineTimestamp ≤ ASSEMBLY_TIMEOUT_MS)
    (hcont : isStackTraceContinuation message st.language = true) :
    feed st message ts wall =
      (some { message := st.errorMessage,
              stackTrace := joinSep "\n" st.buffer,
              severity := st.severity,
              endpoint := st.endpoint,
              rawLog := st.rawLogFirstLine },
       [], initAssembler) := by
  have hne : st.buffer ≠ [] := by
    intro h
    rw [h] at hbuf
    exact absurd hbuf (by decide)
  have hcoll : ¬ st.state ≠ AssemblerState.COLLECTING := fun h => h hstate
  have hflush : flush st =
      (some { message := st.errorMessage,
              stackTrace := joinSep "\n" st.buffer,
              severity := st.severity,
              endpoint := st.endpoint,
              rawLog := st.rawLogFirstLine }, initAssembler) := by
    rw [flush, if_neg (by exact fun h => h.elim (fun h1 => hcoll h1) (fun h2 => hne h2))]
  have hnow : (if ts = 0 then wall else ts) = ts := if_neg htz
  have htimeout : ¬ (st.state = AssemblerState.COLLECTING ∧ st.lastLineTimestamp > 0
      ∧ ts - st.lastLineTimestamp > ASSEMBLY_TIMEOUT_MS) := by
    intro h
    exact absurd h.2.2 (Nat.not_lt.mpr hgap)
  have hnotidle : ¬ st.state = AssemblerState.IDLE := by
    rw [hstate]
    decide
  have h100 : st.buffer.length ≥ MAX_BUFFER_LINES := by
    rw [hbuf]
    decide
  simp only [feed, hnow]
  rw [if_neg htimeout, if_neg hnotidle, if_pos hstate, processWhileCollecting,
      if_pos hcont, if_pos h100, hflush]

/-- C9 witness: a full COLLECTING assembler fed a continuation line. -/
theorem c9_full_buffer_discards_line_witness :
    feed stW "    at g" 1500 0 =
      (some { message := "TypeError: x"
              stackTrace := joinSep "\n" stW.buffer
              severity := .error
              endpoint := none
              rawLog := "TypeError: x" },
       [], initAssembler) :=
  c9_full_buffer_discards_line stW "    at g" 1500 0 rfl (by decide) (by decide)
    (by decide) (by decide) (by decide)

/-- C10: updateErrorStatus on an existing id and a (necessarily valid)
status overwrites exactly the status and statusChangedAt fields —
statusChangedAt is set to now unconditionally, even when the requested
status equals the stored one — and leaves every other field and every
other row unchanged, returning the summary of the updated row. -/
theorem c10_status_update_frame (id : String) (status : ErrorStatus) (now : Nat)
    (pre post : List ErrorRow) (row : ErrorRow)
    (hpre : ∀ r ∈ pre, r.id ≠ id) (hpost : ∀ r ∈ post, r.id ≠ id) (hrow : row.id = id) :
    updateErrorStatus id status now (pre ++ row :: post) =
      (some (rowToSummary { row with status := status, statusChangedAt := now }),
       pre ++ { row with status := status, statusChangedAt := now } :: post) := by
  have hvalid : VALID_STATUSES.contains status = true := by
    cases status <;> decide
  have hprefalse : ∀ r ∈ pre, (r.id == id) = false := by
    intro r hr
    exact beq_eq_false_iff_ne.mpr (hpre r hr)
  have hpostfalse : ∀ r ∈ post, (r.id == id) = false := by
    intro r hr
    exact beq_eq_false_iff_ne.mpr (hpost r hr)
  have hrowt : (row.id == id) = true := beq_iff_eq.mpr hrow
  have hfind : (pre ++ row :: post).find? (fun r => r.id == id) = some row := by
    rw [find?_append_none _ _ _ hprefalse]
    simp [List.find?, hrowt]
  have hmap : (pre ++ row :: post).map
      (fun r => if r.id == id then { r with status := status, statusChangedAt := now } else r) =
      pre ++ { row with status := status, statusChangedAt := now } :: post := by
    rw [List.map_append]
    rw [map_id_of_fixed _ pre (fun r hr => by rw [if_neg (by simp [hprefalse r hr])])]
    simp only [List.map_cons]
    rw [map_id_of_fixed _ post (fun r hr => by rw [if_neg (by simp [hpostfalse r hr])])]
    rw [if_pos hrowt]
  have hfind2 : (pre ++ ({ row with status := status, statusChangedAt := now } : ErrorRow) :: post).find?
      (fun r => r.id == id) = some { row with status := status, statusChangedAt := now } := by
    rw [find?_append_none _ _ _ hprefalse]
    simp [List.find?, hrow]
  rw [updateErrorStatus, if_neg (fun h => h hvalid), hfind]
  dsimp only
  rw [hmap, hfind2]

set_option maxRecDepth 100000 in
set_option maxHeartbeats 4000000 in
/-- C4 counterexample: applying normalizeStackTrace twice is not the
identity on its image — a frame tail with four `:number` segments loses
only the last two on the first pass (one via the `:L:C)` rule, one via the
`:L)` rule) and one more on every further pass. -/
theorem c4_counterexample_not_idempotent :
    normalizeStackTrace (normalizeStackTrace ":1:2:3:4)") ≠
      normalizeStackTrace ":1:2:3:4)" := by
  decide

set_option maxRecDepth 100000 in
set_option maxHeartbeats 4000000 in
/-- C4 amended: normalization is not idempotent in general (see the
counterexample), but a second application is the identity on representative
stack-trace lines exercising each normalization rule — UUIDs, addresses,
ISO and log timestamps, epoch integers, pid and thread ids, POSIX paths,
`file.ext:LINE:COL` frames, node-internal references, goroutine ids and
localhost ports. -/
theorem c4_idempotent_on_representative_lines :
    ∀ s ∈ normalizeIdempotentExamples,
      normalizeStackTrace (normalizeStackTrace s) = normalizeStackTrace s := by
  decide

set_option maxRecDepth 100000 in
set_option maxHeartbeats 4000000 in
/-- C4 amended witness: the node-style frame line. -/
theorem c4_idempotent_on_representative_lines_witness :
    normalizeStackTrace (normalizeStackTrace "    at handler (/app/src/server/routes.ts:42:10)") =
      normalizeStackTrace "    at handler (/app/src/server/routes.ts:42:10)" :=
  c4_idempotent_on_representative_lines "    at handler (/app/src/server/routes.ts:42:10)"
    (by decide)

set_option maxRecDepth 100000 in
set_option maxHeartbeats 4000000 in
/-- C6 counterexample: the line `ECONNREFUSED killed` is classified as an
error through the infrastructure rule; the claimed precedence (any fatal
pattern first — `killed` is one) would report fatal, but isErrorLog reports
the hardcoded error of the infrastructure branch. -/
theorem c6_counterexample_severity_precedence :
    (isErrorLog "ECONNREFUSED killed").isError = true ∧
    claimedSeverityPrecedence "ECONNREFUSED killed" = Severity.fatal ∧
    (isErrorLog "ECONNREFUSED killed").severity = Severity.error :=
  ⟨by decide, by decide, by decide⟩

/-- C6 amended: the reported severity follows the establishing rule: the
stack-start, explicit-marker, uncaught, exit-code, Python and Java branches
defer to classifySeverity (which is exactly the claimed precedence), while
the 5xx, infrastructure, Ruby, Rust, PHP and .NET branches report error,
the 4xx, deprecation and warn-marker branches report warn, and the final
fatal branch reports fatal, regardless of which other patterns also match;
non-error lines carry the default severity error. -/
theorem c6_severity_follows_establishing_rule (message : String) :
    (isErrorLog message).severity = ruleBasedSeverity message := by
  rw [isErrorLog.eq_def, ruleBasedSeverity.eq_def]
  dsimp only
  generalize jsTrim message = t
  generalize classifySeverity t = sv
  generalize extractEndpoint t = ep
  generalize anyMatch INFO_LEVEL_OVERRIDES t = b01
  generalize anyMatch STACK_TRACE_START_PATTERNS t = b02
  generalize anyMatch ERROR_MARKERS t = b03
  generalize anyMatch UNCAUGHT_PATTERNS t = b04
  generalize searchTest HTTP_5XX_PATTERN t = b05
  generalize searchTest HTTP_5XX_STRUCTURED t = b06
  generalize searchTest HTTP_4XX_PATTERN t = b07
  generalize searchTest HTTP_4XX_STRUCTURED t = b08
  generalize anyMatch EXIT_CODE_PATTERNS t = b09
  generalize anyMatch PYTHON_ERROR_PATTERNS t = b10
  generalize anyMatch JAVA_ERROR_PATTERNS t = b11
  generalize anyMatch INFRA_ERROR_PATTERNS t = b12
  generalize anyMatch RUBY_ERROR_PATTERNS t = b13
  generalize anyMatch RUST_ERROR_PATTERNS t = b14
  generalize anyMatch PHP_ERROR_PATTERNS t = b15
  generalize anyMatch DOTNET_ERROR_PATTERNS t = b16
  generalize anyMatch WARNING_PATTERNS t = b17
  generalize anyMatch WARN_MARKERS t = b18
  generalize anyMatch FATAL_PATTERNS t = b19
  simp only [apply_ite (fun p : ParsedLogLine => p.severity)]

/-- A transient recordFailure spelled out: bump the streak, stamp the
failure, and go OPEN from HALF_OPEN or once the streak reaches the
threshold. -/
theorem cbRecordFailure_transient (now : Nat) (cb : CircuitBreaker) :
    cbRecordFailure none now cb =
      (if cb.state = .HALF_OPEN then
        { cb with consecutiveFailures := cb.consecutiveFailures + 1,
                  lastFailureAt := some now, state := .OPEN }
      else if cbThreshold ≤ cb.consecutiveFailures + 1 then
        { cb with consecutiveFailures := cb.consecutiveFailures + 1,
                  lastFailureAt := some now, state := .OPEN }
      else
        { cb with consecutiveFailures := cb.consecutiveFailures + 1,
                  lastFailureAt := some now }) := by
  rw [cbRecordFailure, if_neg (by simp)]

/-- The consecutive-failure bookkeeping of the breaker: starting from a
streak of `c` (state OPEN from the fifth failure on, CLOSED before), `k`
further transient failures leave the streak at `c + k` and the breaker OPEN
exactly from the fifth failure on. -/
theorem failN_spec (now k : Nat) :
    ∀ (c : Nat) (cb : CircuitBreaker), cb.consecutiveFailures = c →
    cb.state = (if 5 ≤ c then CircuitState.OPEN else CircuitState.CLOSED) →
    (failN k now cb).consecutiveFailures = c + k ∧
    (failN k now cb).state = (if 5 ≤ c + k then CircuitState.OPEN else CircuitState.CLOSED) := by
  induction k with
  | zero =>
      intro c cb hc hs
      simpa [failN] using ⟨hc, hs⟩
  | succ k ih =>
      intro c cb hc hs
      have hnothalf : ¬ cb.state = CircuitState.HALF_OPEN := by
        rw [hs]
        split <;> decide
      have hcf : (cbRecordFailure none now cb).consecutiveFailures = c + 1 := by
        rw [cbRecordFailure_transient, if_neg hnothalf]
        split <;> simp [hc]
      have hst : (cbRecordFailure none now cb).state =
          (if 5 ≤ c + 1 then CircuitState.OPEN else CircuitState.CLOSED) := by
        rw [cbRecordFailure_transient, if_neg hnothalf]
        by_cases h51 : 5 ≤ c + 1
        · rw [if_pos h51, if_pos (by rw [hc]; simpa [cbThreshold] using h51)]
        · rw [if_neg h51, if_neg (by rw [hc]; simpa [cbThreshold] using h51)]
          rw [hs, if_neg (by omega)]
      have hrec := ih (c + 1) (cbRecordFailure none now cb) hcf hst
      constructor
      · rw [failN, hrec.1]
        omega
      · rw [failN, hrec.2]
        have hadd : c + 1 + k = c + (k + 1) := by omega
        rw [hadd]

/-- C5: while the breaker is OPEN and less than 60 s have passed since the
last recorded failure, the client refuses without sending and nothing
changes; once 60 s have passed the breaker reads HALF_OPEN and the next
call is sent (absent the auth latch and rate limiting); a transient failure
recorded in HALF_OPEN reopens the breaker with the failure time stamped at
now (restarting the 60-second window), while a success recorded in
HALF_OPEN closes it; and from a CLOSED breaker with a clean streak, `k`
consecutive transient failures open the breaker exactly from the fifth
on. -/
theorem c5_circuit_breaker_cycle (cb : CircuitBreaker) (t now : Nat)
    (rl : RateLimitInfo) (outcome : CallOutcome) :
    (cb.state = .OPEN → cb.lastFailureAt = some t → t ≠ 0 → now - t < cbResetTimeoutMs →
      attemptRequest now rl outcome cb = (false, cb)) ∧
    (cb.state = .OPEN → cb.lastFailureAt = some t → t ≠ 0 → cbResetTimeoutMs ≤ now - t →
      cb.authError = false → isRateLimited now rl = false →
      (attemptRequest now rl outcome cb).1 = true ∧
      (cbGetState now cb).1 = .HALF_OPEN) ∧
    (∀ sc : Option Nat, cb.state = .HALF_OPEN → sc ≠ some 401 → sc ≠ some 403 →
      (cbRecordFailure sc now cb).state = .OPEN ∧
      (cbRecordFailure sc now cb).lastFailureAt = some now) ∧
    (cb.state = .HALF_OPEN → (cbRecordSuccess now cb).state = .CLOSED) ∧
    (∀ k : Nat, cb.state = .CLOSED → cb.consecutiveFailures = 0 →
      (failN k now cb).state = (if 5 ≤ k then CircuitState.OPEN else CircuitState.CLOSED) ∧
      (failN k now cb).consecutiveFailures = k) := by
  refine ⟨?_, ?_, ?_, ?_, ?_⟩
  · intro hs hl htz hlt
    have hg : cbGetState now cb = (.OPEN, cb) := by
      rw [cbGetState, if_pos hs, hl]
      dsimp only
      rw [if_neg (fun h => absurd h.2 (Nat.not_le.mpr hlt)), hs]
    simp [attemptRequest, cbIsOpen, hg]
  · intro hs hl htz hge hauth hrl
    have hg : cbGetState now cb = (.HALF_OPEN, { cb with state := .HALF_OPEN }) := by
      rw [cbGetState, if_pos hs, hl]
      dsimp only
      rw [if_pos ⟨htz, hge⟩]
    refine ⟨?_, by rw [hg]⟩
    simp [attemptRequest, cbIsOpen, hg, hauth, hrl]
  · intro sc hs h1 h3
    constructor <;> simp [cbRecordFailure, h1, h3, hs]
  · intro hs
    simp [cbRecordSuccess, hs]
  · intro k hs hc
    have h := failN_spec now k 0 cb hc (by simpa using hs)
    refine ⟨?_, by simpa using h.1⟩
    have h2 := h.2
    rw [Nat.zero_add] at h2
    exact h2

/-- C5 witness: a breaker that opened at time 10000 refuses a call at time
50000 without recording anything. -/
theorem c5_circuit_breaker_cycle_witness :
    attemptRequest 50000 rlW .success cbW = (false, cbW) :=
  (c5_circuit_breaker_cycle cbW 10000 50000 rlW .success).1 rfl rfl
    (by decide) (by decide)

/-- Mapping an update over a table whose only row of the given fingerprint
is `row` rewrites exactly that row. -/
theorem map_update_row (fp : String) (g : ErrorRow → ErrorRow)
    (pre post : List ErrorRow) (row : ErrorRow)
    (hrow : row.fingerprint = fp)
    (hpre : ∀ r ∈ pre, r.fingerprint ≠ fp)
    (hpost : ∀ r ∈ post, r.fingerprint ≠ fp) :
    (pre ++ row :: post).map (fun r => if r.fingerprint == fp then g r else r) =
      pre ++ g row :: post := by
  rw [List.map_append]
  rw [map_id_of_fixed _ pre
      (fun r hr => by rw [if_neg (by simp [beq_eq_false_iff_ne.mpr (hpre r hr)])])]
  simp only [List.map_cons]
  rw [map_id_of_fixed _ post
      (fun r hr => by rw [if_neg (by simp [beq_eq_false_iff_ne.mpr (hpost r hr)])])]
  rw [if_pos (beq_iff_eq.mpr hrow)]

/-- processError on a table holding no row of the fingerprint of the input
inserts the fresh row at the end and reports it as new. -/
theorem processError_insert (genId : String) (now : Nat) (input : ProcessErrorInput)
    (rows : List ErrorRow)
    (h : ∀ r ∈ rows, r.fingerprint ≠ inputFingerprint input) :
    processError genId now input rows =
      some ((freshRow genId now input, true), rows ++ [freshRow genId now input]) := by
  have hfind : rows.find? (fun r => r.fingerprint == inputFingerprint input) = none := by
    rw [List.find?_eq_none]
    intro r hr
    simp [h r hr]
  rw [processError.eq_def]
  dsimp only
  rw [hfind]
  rfl

/-- processError on a table whose unique row of the fingerprint of the input is
`row` applies the recurrence SET clause to exactly that row, reports it as
not new, and leaves everything else untouched. -/
theorem processError_update (genId : String) (now : Nat) (input : ProcessErrorInput)
    (pre post : List ErrorRow) (row : ErrorRow)
    (hfp : inputFingerprint input = row.fingerprint)
    (hpre : ∀ r ∈ pre, r.fingerprint ≠ row.fingerprint)
    (hpost : ∀ r ∈ post, r.fingerprint ≠ row.fingerprint)
    (hpreid : ∀ r ∈ pre, r.id ≠ row.id) :
    processError genId now input (pre ++ row :: post) =
      some ((recurrenceSet row now input row, false),
            pre ++ recurrenceSet row now input row :: post) := by
  have hrowt : (row.fingerprint == inputFingerprint input) = true := by
    rw [hfp]
    exact beq_self_eq_true _
  have hprefalse : ∀ r ∈ pre, (r.fingerprint == inputFingerprint input) = false := by
    intro r hr
    rw [hfp]
    exact beq_eq_false_iff_ne.mpr (hpre r hr)
  have hfind : (pre ++ row :: post).find?
      (fun r => r.fingerprint == inputFingerprint input) = some row := by
    rw [find?_append_none _ _ _ hprefalse]
    simp [List.find?, hrowt]
  have hmap : (pre ++ row :: post).map
      (fun r => if r.fingerprint == inputFingerprint input then
        recurrenceSet row now input r else r) =
      pre ++ recurrenceSet row now input row :: post :=
    map_update_row (inputFingerprint input) _ pre post row hfp.symm
      (fun r hr => hfp ▸ hpre r hr) (fun r hr => hfp ▸ hpost r hr)
  have hpreidfalse : ∀ r ∈ pre, (r.id == row.id) = false := by
    intro r hr
    exact beq_eq_false_iff_ne.mpr (hpreid r hr)
  have hid : ((recurrenceSet row now input row).id == row.id) = true := by
    simp [recurrenceSet]
  have hfind2 : (pre ++ recurrenceSet row now input row :: post).find?
      (fun r => r.id == row.id) = some (recurrenceSet row now input row) := by
    rw [find?_append_none _ _ _ hpreidfalse]
    simp [List.find?, hid]
  rw [processError.eq_def]
  dsimp only
  rw [hfind]
  dsimp only
  rw [hmap, hfind2]

/-- Running a sequence of recurrences of the fingerprint of one row keeps the
table shape, bumps the occurrence count once per call, never touches
firstSeenAt, and folds the severity escalation over the incoming
severities. -/
theorem processSeq_update (calls : List GrouperCall) :
    ∀ (pre post : List ErrorRow) (row : ErrorRow),
    (∀ c ∈ calls, inputFingerprint c.input = row.fingerprint) →
    (∀ r ∈ pre, r.fingerprint ≠ row.fingerprint) →
    (∀ r ∈ post, r.fingerprint ≠ row.fingerprint) →
    (∀ r ∈ pre, r.id ≠ row.id) →
    ∃ row', processSeq calls (pre ++ row :: post) = some (pre ++ row' :: post) ∧
      row'.fingerprint = row.fingerprint ∧
      row'.id = row.id ∧
      row'.occurrenceCount = row.occurrenceCount + calls.length ∧
      row'.firstSeenAt = row.firstSeenAt ∧
      row'.severity = calls.foldl (fun s c =>
        if shouldEscalate s c.input.severity then c.input.severity else s)
        row.severity := by
  induction calls with
  | nil =>
      intro pre post row _ _ _ _
      exact ⟨row, rfl, rfl, rfl, by simp, rfl, rfl⟩
  | cons c rest ih =>
      intro pre post row h1 h2 h3 h4
      have hc := h1 c (List.mem_cons_self c rest)
      have hupd := processError_update c.genId c.now c.input pre post row hc h2 h3 h4
      have hfp2 : (recurrenceSet row c.now c.input row).fingerprint = row.fingerprint := rfl
      have hid2 : (recurrenceSet row c.now c.input row).id = row.id := rfl
      obtain ⟨row', hseq, ha, hb, hcnt, hfs, hsev⟩ :=
        ih pre post (recurrenceSet row c.now c.input row)
          (fun x hx => h1 x (List.mem_cons_of_mem c hx))
          h2 h3 h4
      refine ⟨row', ?_, ha.trans hfp2, hb.trans hid2, ?_, hfs, ?_⟩
      · rw [processSeq, hupd]
        dsimp only
        exact hseq
      · rw [hcnt]
        have : (recurrenceSet row c.now c.input row).occurrenceCount =
            row.occurrenceCount + 1 := rfl
        rw [this]
        simp only [List.length_cons]
        omega
      · rw [hsev, List.foldl_cons]
        rfl

/-- C1: for a sequence of processError calls all yielding one fingerprint,
starting from a table with no row of that fingerprint, after the N-th call
the stored row of that fingerprint has occurrenceCount N and firstSeenAt
equal to the now of the first call (instantiating the list with every prefix
gives the statement after each call). -/
theorem c1_occurrence_count_and_first_seen (firstCall : GrouperCall)
    (restCalls : List GrouperCall) (fp : String)
    (hfirst : inputFingerprint firstCall.input = fp)
    (hrest : ∀ c ∈ restCalls, inputFingerprint c.input = fp)
    (rows0 : List ErrorRow)
    (hinit : ∀ r ∈ rows0, r.fingerprint ≠ fp)
    (hids : ∀ r ∈ rows0, r.id ≠ firstCall.genId) :
    ∃ rows', processSeq (firstCall :: restCalls) rows0 = some rows' ∧
      ∃ row, rows'.find? (fun r => r.fingerprint == fp) = some row ∧
        row.occurrenceCount = (firstCall :: restCalls).length ∧
        row.firstSeenAt = firstCall.now := by
  have hins := processError_insert firstCall.genId firstCall.now firstCall.input rows0
    (fun r hr => hfirst ▸ hinit r hr)
  have hfr : (freshRow firstCall.genId firstCall.now firstCall.input).fingerprint = fp :=
    hfirst
  obtain ⟨row', hseq, ha, _, hcnt, hfs, _⟩ :=
    processSeq_update restCalls rows0 []
      (freshRow firstCall.genId firstCall.now firstCall.input)
      (fun c hc => (hrest c hc).trans hfr.symm)
      (fun r hr => hfr ▸ hinit r hr)
      (by intro r hr; exact absurd hr (List.not_mem_nil r))
      (fun r hr => hids r hr)
  refine ⟨rows0 ++ row' :: [], ?_, row', ?_, ?_, ?_⟩
  · rw [processSeq, hins]
    dsimp only
    exact hseq
  · rw [find?_append_none _ _ _
        (fun r hr => beq_eq_false_iff_ne.mpr (hinit r hr))]
    simp [List.find?, beq_iff_eq.mpr (ha.trans hfr)]
  · have h1 : (freshRow firstCall.genId firstCall.now firstCall.input).occurrenceCount = 1 := rfl
    rw [hcnt, h1, List.length_cons]
    omega
  · exact hfs

/-- C1 witness: two calls with the same fingerprint on an empty table. -/
theorem c1_occurrence_count_and_first_seen_witness :
    ∃ rows', processSeq [callW1, callW2] [] = some rows' ∧
      ∃ row, rows'.find? (fun r => r.fingerprint == inputFingerprint inputW) = some row ∧
        row.occurrenceCount = 2 ∧
        row.firstSeenAt = 1000 :=
  c1_occurrence_count_and_first_seen callW1 [callW2] (inputFingerprint inputW)
    rfl (by decide) [] (by simp) (by simp)

/-- Escalation agrees with the binary maximum under warn < error < fatal. -/
theorem escalate_eq_sevMax (a b : Severity) :
    (if shouldEscalate a b then b else a) = sevMax a b := by
  cases a <;> cases b <;> rfl

/-- The maximum never ranks below its left argument. -/
theorem sevMax_le_left (a b : Severity) :
    severityOrder a ≤ severityOrder (sevMax a b) := by
  cases a <;> cases b <;> decide

/-- Folding the maximum over a call list never ranks below the start. -/
theorem foldl_sevMax_ge (l : List GrouperCall) :
    ∀ a : Severity,
      severityOrder a ≤
        severityOrder (l.foldl (fun s c => sevMax s c.input.severity) a) := by
  induction l with
  | nil => intro a; simp
  | cons c rest ih =>
      intro a
      rw [List.foldl_cons]
      exact Nat.le_trans (sevMax_le_left a c.input.severity) (ih _)

/-- C2: across any sequence of recurrences of the fingerprint of one row, the
stored severity equals the fold of the maximum (under warn < error < fatal)
of the initial severity and every incoming severity, and in particular it
never ranks below the initial severity (instantiating the list with every
prefix gives monotonicity call by call). -/
theorem c2_severity_is_running_max (calls : List GrouperCall)
    (pre post : List ErrorRow) (row : ErrorRow)
    (hfps : ∀ c ∈ calls, inputFingerprint c.input = row.fingerprint)
    (hpre : ∀ r ∈ pre, r.fingerprint ≠ row.fingerprint)
    (hpost : ∀ r ∈ post, r.fingerprint ≠ row.fingerprint)
    (hpreid : ∀ r ∈ pre, r.id ≠ row.id) :
    ∃ rows', processSeq calls (pre ++ row :: post) = some rows' ∧
      ∃ row', rows'.find? (fun r => r.fingerprint == row.fingerprint) = some row' ∧
        row'.severity = calls.foldl (fun s c => sevMax s c.input.severity) row.severity ∧
        severityOrder row.severity ≤ severityOrder row'.severity := by
  obtain ⟨row', hseq, ha, _, _, _, hsev⟩ :=
    processSeq_update calls pre post row hfps hpre hpost hpreid
  have hfun : (fun s (c : GrouperCall) =>
      if shouldEscalate s c.input.severity then c.input.severity else s) =
      (fun s c => sevMax s c.input.severity) := by
    funext s c
    exact escalate_eq_sevMax s c.input.severity
  rw [hfun] at hsev
  refine ⟨pre ++ row' :: post, hseq, row', ?_, hsev, ?_⟩
  · rw [find?_append_none _ _ _
        (fun r hr => beq_eq_false_iff_ne.mpr (hpre r hr))]
    simp [List.find?, beq_iff_eq.mpr ha]
  · rw [hsev]
    exact foldl_sevMax_ge calls row.severity

/-- C2 witness: a warn recurrence does not downgrade a stored error. -/
theorem c2_severity_is_running_max_witness :
    ∃ rows', processSeq [callW1] ([] ++ rowW :: []) = some rows' ∧
      ∃ row', rows'.find? (fun r => r.fingerprint == rowW.fingerprint) = some row' ∧
        row'.severity = [callW1].foldl (fun s c => sevMax s c.input.severity) rowW.severity ∧
        severityOrder rowW.severity ≤ severityOrder row'.severity :=
  c2_severity_is_running_max [callW1] [] [] rowW (by decide) (by simp) (by simp) (by simp)

/-- C3: a recurrence of an existing group reverts a resolved status to new
and stamps statusChangedAt with now; any other status (new, investigating,
in-progress) is preserved and statusChangedAt is left untouched by this
path. -/
theorem c3_status_revert_on_recurrence (genId : String) (now : Nat)
    (input : ProcessErrorInput) (pre post : List ErrorRow) (row : ErrorRow)
    (hfp : inputFingerprint input = row.fingerprint)
    (hpre : ∀ r ∈ pre, r.fingerprint ≠ row.fingerprint)
    (hpost : ∀ r ∈ post, r.fingerprint ≠ row.fingerprint)
    (hpreid : ∀ r ∈ pre, r.id ≠ row.id) :
    processError genId now input (pre ++ row :: post) =
      some ((recurrenceSet row now input row, false),
            pre ++ recurrenceSet row now input row :: post) ∧
    (recurrenceSet row now input row).status =
      (if row.status = .resolved then ErrorStatus.new else row.status) ∧
    (recurrenceSet row now input row).statusChangedAt =
      (if row.status = .resolved then now else row.statusChangedAt) := by
  refine ⟨processError_update genId now input pre post row hfp hpre hpost hpreid, rfl, ?_⟩
  cases hstat : row.status <;> simp [recurrenceSet, hstat]

/-- C3 witness: a recurrence of a resolved group reopens it at now. -/
theorem c3_status_revert_on_recurrence_witness :
    processError "id-9" 3000 inputW ([] ++ rowWres :: []) =
      some ((recurrenceSet rowWres 3000 inputW rowWres, false),
            [] ++ recurrenceSet rowWres 3000 inputW rowWres :: []) ∧
    (recurrenceSet rowWres 3000 inputW rowWres).status =
      (if rowWres.status = .resolved then ErrorStatus.new else rowWres.status) ∧
    (recurrenceSet rowWres 3000 inputW rowWres).statusChangedAt =
      (if rowWres.status = .resolved then 3000 else rowWres.statusChangedAt) :=
  c3_status_revert_on_recurrence "id-9" 3000 inputW [] [] rowWres (by decide)
    (by simp) (by simp) (by simp)

/-- C10 witness: requesting the status a resolved row already has still
stamps statusChangedAt. -/
theorem c10_status_update_frame_witness :
    updateErrorStatus "id-0" .new 9000 [rowW] =
      (some (rowToSummary { rowW with status := .new, statusChangedAt := 9000 }),
       [{ rowW with status := .new, statusChangedAt := 9000 }]) :=
  c10_status_update_frame "id-0" .new 9000 [] [] rowW (by simp) (by simp) (by decide)

end Errly

